import Mathlib

/-!
# Verification of the live chat-stream capture core (`src/chat-stream.mjs`)

Shallow embedding of the capture module of the AntigravityMobile repository.
Remote I/O (HTTP discovery probes, the CDP control channel, expression
evaluation inside the remote page) is modelled by explicit oracle functions
passed to each operation; the module-level mutable variables (`connection`,
`onChatUpdate`, `pollInterval`, `lastHash`) become an explicit `ModuleState`
record, and the set of open websockets / active interval timers becomes an
explicit `World` ledger so that resource claims (connections closed, timers
cancelled) are statable.  JavaScript strings are modelled as Lean `String`
(`charCodeAt` as the Unicode scalar value, which agrees with UTF-16 code
units on the BMP), JS 32-bit integer coercion as explicit `% 2^32`
arithmetic on `Int`, and JS truthiness of numbers / strings is modelled
explicitly where the source relies on it.
-/

namespace ChatStream

/-! ## JS string helpers -/

/-- JS `String.prototype.includes`: substring containment. -/
def strHas (s pat : String) : Bool :=
  (s.toList.tails).any (fun t => pat.toList.isPrefixOf t)

/-! ## `hashString` (lines 23-30)

```js
function hashString(str) {
    let hash = 0;
    for (let i = 0; i < str.length; i++) {
        hash = ((hash << 5) - hash) + str.charCodeAt(i);
        hash = hash & hash;
    }
    return hash.toString(36);
}
```
`hash << 5` and `hash & hash` coerce through ToInt32 (wrap into
`[-2^31, 2^31)`); the intermediate `((h<<5) - h) + c` is exact in doubles. -/

/-- JS ToInt32: wrap an integer into `[-2^31, 2^31)`. -/
def toInt32 (n : Int) : Int := (n + 2 ^ 31) % 2 ^ 32 - 2 ^ 31

/-- One iteration of the `hashString` loop: `hash = ToInt32((ToInt32(hash*32) - hash) + c)`. -/
def hashStep (h : Int) (c : Nat) : Int := toInt32 (toInt32 (h * 32) - h + (c : Int))

/-- Digit character for base-36 (`0-9a-z`), as produced by JS `Number.prototype.toString(36)`. -/
def digitChar36 (d : Nat) : Char :=
  if d < 10 then Char.ofNat (48 + d) else Char.ofNat (87 + d)

/-- Fuelled base-36 digit accumulation (fuel ≥ number of digits suffices). -/
def toBase36Go : Nat → Nat → List Char → List Char
  | 0, _, acc => acc
  | fuel + 1, n, acc => if n = 0 then acc else toBase36Go fuel (n / 36) (digitChar36 (n % 36) :: acc)

/-- Base-36 rendering of a natural number. -/
def natToBase36 (n : Nat) : String :=
  if n = 0 then "0" else String.mk (toBase36Go (n + 1) n [])

/-- JS `Number.prototype.toString(36)` on a 32-bit integer value. -/
def intToString36 (i : Int) : String :=
  if i < 0 then "-" ++ natToBase36 i.natAbs else natToBase36 i.toNat

/-- The fingerprint function `hashString` of `chat-stream.mjs`. -/
def hashString (str : String) : String :=
  intToString36 (str.toList.foldl (fun h ch => hashStep h ch.toNat) 0)

/-! ## Target discovery (`findTargets`, lines 35-57) -/

/-- One page descriptor from a `/json/list` response.  `url`, `title` and
`type` may be absent (the source uses `t.url?.includes(...)` etc.). -/
structure PageEntry where
  url : Option String
  title : Option String
  type : Option String
  webSocketDebuggerUrl : String
deriving DecidableEq

/-- Behaviour of one CDP port: `closed` covers both an unreachable port and a
response whose body fails to parse (both paths land in the swallowed
`catch`); `pages` is a successfully parsed page list. -/
inductive PortResponse where
  | closed
  | pages (list : List PageEntry)

/-- A discovered target: a page entry tagged with its source port
(the source pushes the spread `{ ...t, port }`). -/
structure Target where
  url : Option String
  title : Option String
  type : Option String
  webSocketDebuggerUrl : String
  port : Nat
deriving DecidableEq

/-- Tag a page entry with its source port. -/
def tagTarget (t : PageEntry) (port : Nat) : Target :=
  { url := t.url, title := t.title, type := t.type
    webSocketDebuggerUrl := t.webSocketDebuggerUrl, port := port }

/-- The untagged entry of a target. -/
def entryOf (t : Target) : PageEntry :=
  { url := t.url, title := t.title, type := t.type
    webSocketDebuggerUrl := t.webSocketDebuggerUrl }

/-- The workbench filter of `findTargets`:
`t.url?.includes('workbench.html') || t.title?.includes('Antigravity') || t.type === 'page'`. -/
def pageMatches (t : PageEntry) : Bool :=
  (match t.url with | some u => strHas u "workbench.html" | none => false)
  || (match t.title with | some s => strHas s "Antigravity" | none => false)
  || (t.type == some "page")

/-- The fixed probe port list `CDP_PORTS` (line 12). -/
def CDP_PORTS : List Nat := [9222, 9000, 9001, 9002, 9003]

/-- The port loop of `findTargets`, accumulating matched, tagged entries in
port order (within-port order preserved by `filter`/`forEach`). -/
def findTargetsAux (resp : Nat → PortResponse) : List Nat → List Target
  | [] => []
  | p :: ps =>
    (match resp p with
     | .closed => []
     | .pages l => (l.filter pageMatches).map (fun t => tagTarget t p))
    ++ findTargetsAux resp ps

/-- `findTargets` (lines 35-57): probe each port of `CDP_PORTS`, keep
matching entries tagged with their port; erroring ports contribute nothing. -/
def findTargets (resp : Nat → PortResponse) : List Target :=
  findTargetsAux resp CDP_PORTS

/-- Spec-side description of discovery (per 4.1 of the spec): for each port
the retained tagged entries; discovery is their union in port order.  Used
to compare the implementation loop against the spec's wording. -/
def portTargetsSpec (resp : Nat → PortResponse) (p : Nat) : List Target :=
  match resp p with
  | .closed => []
  | .pages l => (l.filter pageMatches).map (fun t => tagTarget t p)

/-! ## Protocol session and context locator (lines 62-155) -/

/-- The mutable part of a `connectCDP` session object that the locator and
poller interact with: the socket identity, the live execution-context id
list (insertion order) and the one-slot cascade-context cache. -/
structure CDP where
  sock : Nat
  contexts : List Nat
  cascadeContextId : Option Nat
deriving DecidableEq

/-- Outcome of evaluating the cascade probe `SCRIPT` in one context:
the evaluation rejects, or returns a value whose `found` field has the
given truthiness (a missing `found` is `false`). -/
inductive EvalResult where
  | throws
  | value (found : Bool)
deriving DecidableEq

/-- The `for (const ctx of cdp.contexts)` scan of `findCascadeContext`:
first context whose probe reports `found` wins; throwing or non-found
contexts are skipped. -/
def scanContexts (probe : Nat → EvalResult) : List Nat → Option Nat
  | [] => none
  | c :: rest =>
    match probe c with
    | .value true => some c
    | _ => scanContexts probe rest

/-- `findCascadeContext` (lines 113-155).  Cached-context fast path first:
the cache is consulted only when truthy; a probe that throws clears the
cache, a probe reporting `found` returns the cached id, and otherwise
(found=false) control falls through to the scan with the cache left as it
was.  The scan caches and returns the first context reporting `found`. -/
def findCascadeContext (probe : Nat → EvalResult) (cdp : CDP) : CDP × Option Nat :=
  match cdp.cascadeContextId with
  | some cid =>
    if cid != 0 then
      match probe cid with
      | .value true => (cdp, some cid)
      | .value false =>
        match scanContexts probe cdp.contexts with
        | some found => ({ cdp with cascadeContextId := some found }, some found)
        | none => (cdp, none)
      | .throws =>
        match scanContexts probe cdp.contexts with
        | some found => ({ cdp with cascadeContextId := some found }, some found)
        | none => ({ cdp with cascadeContextId := none }, none)
    else
      match scanContexts probe cdp.contexts with
      | some found => ({ cdp with cascadeContextId := some found }, some found)
      | none => (cdp, none)
  | none =>
    match scanContexts probe cdp.contexts with
    | some found => ({ cdp with cascadeContextId := some found }, some found)
    | none => (cdp, none)

/-! ## Snapshot capture at the session level (lines 408-421) -/

/-- The value returned by the capture `SCRIPT` (lines 400-405). -/
structure Chat where
  html : String
  css : String
  bodyBg : String
  bodyColor : String
deriving DecidableEq

/-- Outcome of the `Runtime.evaluate` call in `captureChat`: the call
rejects, the response carries no value, the value carries an `error`
field, or a chat value is produced. -/
inductive CaptureOutcome where
  | throws
  | noValue
  | errorValue
  | ok (chat : Chat)
deriving DecidableEq

/-- `captureChat` (lines 408-421): every failure mode is absorbed into
`null` (modelled `none`); only a value without `error` is returned. -/
def captureChat (capture : Nat → CaptureOutcome) (contextId : Nat) : Option Chat :=
  match capture contextId with
  | .ok chat => some chat
  | _ => none

/-! ## Module state and the poll cycle (lines 14-18 and 447-463) -/

/-- The module-level mutable variables of `chat-stream.mjs` (lines 14-18).
The consumer callback is identified by an opaque numeric id. -/
structure ModuleState where
  connection : Option CDP
  onChatUpdate : Option Nat
  pollInterval : Option Nat
  lastHash : Option String
deriving DecidableEq

/-- Observable outcome of one poll cycle: nothing emitted (`skip`), the
consumer callback invoked and returned (`emitted`), or the consumer
callback invoked and threw — in which case the async `poll` function
itself rejects (`threw`). -/
inductive PollOutcome where
  | skip
  | emitted (chat : Chat)
  | threw (chat : Chat)
deriving DecidableEq

/-- One poll cycle (lines 447-463).  `probe` drives `findCascadeContext`,
`capture` drives `captureChat`, and `cbThrows chat` tells whether the
consumer callback throws when handed `chat`.  Note that `lastHash` is
assigned *before* the callback is invoked, and that the callback is the
only uncaught stage of the cycle. -/
def poll (probe : Nat → EvalResult) (capture : Nat → CaptureOutcome)
    (cbThrows : Chat → Bool) (st : ModuleState) : ModuleState × PollOutcome :=
  match st.connection with
  | none => (st, .skip)
  | some conn =>
    match findCascadeContext probe conn with
    | (conn2, none) => ({ st with connection := some conn2 }, .skip)
    | (conn2, some ctxId) =>
      if ctxId = 0 then ({ st with connection := some conn2 }, .skip)
      else
        match captureChat capture ctxId with
        | none => ({ st with connection := some conn2 }, .skip)
        | some chat =>
          if chat.html = "" then ({ st with connection := some conn2 }, .skip)
          else if st.lastHash = some (hashString chat.html) then
            ({ st with connection := some conn2 }, .skip)
          else
            match st.onChatUpdate with
            | none =>
              ({ st with connection := some conn2, lastHash := some (hashString chat.html) }, .skip)
            | some _ =>
              if cbThrows chat then
                ({ st with connection := some conn2, lastHash := some (hashString chat.html) },
                 .threw chat)
              else
                ({ st with connection := some conn2, lastHash := some (hashString chat.html) },
                 .emitted chat)

/-- Environment for one poll cycle. -/
structure CycleEnv where
  probe : Nat → EvalResult
  capture : Nat → CaptureOutcome
  cbThrows : Chat → Bool

/-- The consumer-callback invocations of one cycle outcome (at most one). -/
def emitsOf (ev : PollOutcome) : List Chat :=
  match ev with
  | .skip => []
  | .emitted chat => [chat]
  | .threw chat => [chat]

/-- A sequence of poll cycles: thread the module state, collect every
consumer-callback invocation in order. -/
def pollRun : List CycleEnv → ModuleState → ModuleState × List Chat
  | [], st => (st, [])
  | e :: es, st =>
    let step := poll e.probe e.capture e.cbThrows st
    let rest := pollRun es step.1
    (rest.1, emitsOf step.2 ++ rest.2)

/-! ## Session lifecycle (lines 426-531) -/

/-- External resource ledger: websockets currently open and interval
timers currently scheduled. -/
structure World where
  openSockets : List Nat
  timers : List Nat
deriving DecidableEq

/-- Per-target environment used when `startChatStream` / `getChatSnapshot`
attempts a target: the `connectCDP` outcome (`none` models a rejected
connection; `some cdp` an opened session with its socket and the contexts
reported during the settle window), and the oracles driving evaluation on
that session. -/
structure ConnEnv where
  connect : Option CDP
  probe : Nat → EvalResult
  capture : Nat → CaptureOutcome
  cbThrows : Chat → Bool

/-- The structured result of `startChatStream`. -/
structure StartResult where
  success : Bool
  target : Option String
  error : Option String
deriving DecidableEq

/-- The `for (const target of targets)` loop of `startChatStream`
(lines 436-478).  A target whose connection rejects is skipped.  On a
truthy located context the module `connection` is installed, the initial
`await poll()` runs, and — unless that initial poll rejected (a throwing
consumer callback is the one uncaught stage, and the rejection is caught
by the loop's `catch`, which then moves on with the new connection and
its open socket left in place) — the interval is installed and success
returned.  A target that connects but fails to locate has its websocket
closed before the next candidate is tried. -/
def tryTargets (env : Target → ConnEnv) (timerId : Nat) :
    List Target → ModuleState → World → ModuleState × World × StartResult
  | [], st, w => (st, w, ⟨false, none, some "No cascade element found in any target"⟩)
  | t :: rest, st, w =>
    match (env t).connect with
    | none => tryTargets env timerId rest st w
    | some cdp =>
      match findCascadeContext (env t).probe cdp with
      | (cdp2, some ctxId) =>
        if ctxId ≠ 0 then
          match poll (env t).probe (env t).capture (env t).cbThrows
              { st with connection := some cdp2 } with
          | (st2, .threw _) =>
            tryTargets env timerId rest st2
              { w with openSockets := w.openSockets ++ [cdp.sock] }
          | (st2, _) =>
            ({ st2 with pollInterval := some timerId },
             { w with openSockets := w.openSockets ++ [cdp.sock],
                      timers := w.timers ++ [timerId] },
             ⟨true, t.title, none⟩)
        else
          tryTargets env timerId rest st
            { w with openSockets := (w.openSockets ++ [cdp.sock]).erase cdp.sock }
      | (_, none) =>
        tryTargets env timerId rest st
          { w with openSockets := (w.openSockets ++ [cdp.sock]).erase cdp.sock }

/-- `startChatStream` (lines 426-481).  The callback is stored
unconditionally first; discovery runs; an empty target list is a
structured failure; otherwise the target loop runs.  `timerId` is the
fresh handle `setInterval` would return.  The poll cadence `pollMs` has
no observable effect in this model and is omitted. -/
def startChatStream (cb : Nat) (resp : Nat → PortResponse) (env : Target → ConnEnv)
    (timerId : Nat) (st : ModuleState) (w : World) : ModuleState × World × StartResult :=
  if (findTargets resp).isEmpty then
    ({ st with onChatUpdate := some cb }, w, ⟨false, none, some "No CDP targets found"⟩)
  else
    tryTargets env timerId (findTargets resp) { st with onChatUpdate := some cb } w

/-- `stopChatStream` (lines 486-497). -/
def stopChatStream (st : ModuleState) (w : World) : ModuleState × World :=
  let w1 := match st.pollInterval with
    | some t => { w with timers := w.timers.erase t }
    | none => w
  let w2 := match st.connection with
    | some c => { w1 with openSockets := w1.openSockets.erase c.sock }
    | none => w1
  (⟨none, none, none, none⟩, w2)

/-- `isStreaming` (lines 529-531): `connection !== null && pollInterval !== null`. -/
def isStreaming (st : ModuleState) : Bool :=
  st.connection.isSome && st.pollInterval.isSome

/-- The ephemeral target loop of `getChatSnapshot` (lines 505-517): connect,
locate, and on a truthy context capture, close the socket and return the
capture result (even when that result is `null`); a target that fails to
locate has its socket closed and the next candidate is tried. -/
def snapshotLoop (env : Target → ConnEnv) : List Target → World → World × Option Chat
  | [], w => (w, none)
  | t :: rest, w =>
    match (env t).connect with
    | none => snapshotLoop env rest w
    | some cdp =>
      match findCascadeContext (env t).probe cdp with
      | (_, some ctxId) =>
        if ctxId ≠ 0 then
          ({ w with openSockets := (w.openSockets ++ [cdp.sock]).erase cdp.sock },
           captureChat (env t).capture ctxId)
        else
          snapshotLoop env rest
            { w with openSockets := (w.openSockets ++ [cdp.sock]).erase cdp.sock }
      | (_, none) =>
        snapshotLoop env rest
          { w with openSockets := (w.openSockets ++ [cdp.sock]).erase cdp.sock }

/-- `getChatSnapshot` (lines 502-524): with no active connection, an
ephemeral discover → connect → locate → capture → close pass that touches
no module state; with an active connection, one locate + capture pass on
it (updating only its context cache in place). -/
def getChatSnapshot (resp : Nat → PortResponse) (env : Target → ConnEnv)
    (probe : Nat → EvalResult) (capture : Nat → CaptureOutcome)
    (st : ModuleState) (w : World) : ModuleState × World × Option Chat :=
  match st.connection with
  | none =>
    match snapshotLoop env (findTargets resp) w with
    | (w2, chat) => (st, w2, chat)
  | some conn =>
    match findCascadeContext probe conn with
    | (conn2, some ctxId) =>
      if ctxId ≠ 0 then ({ st with connection := some conn2 }, w, captureChat capture ctxId)
      else ({ st with connection := some conn2 }, w, none)
    | (conn2, none) => ({ st with connection := some conn2 }, w, none)

/-- A target attempt that cannot yield a located cascade context: the
connection rejects, or the located context of the fresh session is falsy. -/
def locateFails (e : ConnEnv) : Bool :=
  match e.connect with
  | none => true
  | some cdp =>
    match (findCascadeContext e.probe cdp).2 with
    | none => true
    | some ctxId => ctxId == 0

/-! ## DOM model for the capture `SCRIPT` (lines 162-406)

The expression executed inside the located context is logically a pure
function of the page DOM.  The DOM is modelled as a tree of elements
(tag, attribute list, children) and text nodes; `querySelectorAll` for
the specific selectors used by the script becomes pre-order filtering of
descendants, and the style sheets / computed style / canvas rasterisation
(`toDataURL`) inputs become an explicit `PageEnv`. -/

mutual
inductive DomNode where
  | elem (tag : String) (attrs : List (String × String)) (children : NodeList)
  | text (s : String)
deriving DecidableEq
inductive NodeList where
  | nil
  | cons (head : DomNode) (tail : NodeList)
deriving DecidableEq
end


/-- Structural split on a separator character (JS-style `split`: empty
segments are kept).  The core `String.splitOn` is compiled by well-founded
recursion and does not reduce inside the kernel; this version does. -/
def splitChar (sep : Char) : List Char → List (List Char)
  | [] => [[]]
  | c :: cs =>
    match splitChar sep cs with
    | [] => if c == sep then [[], []] else [[c]]
    | seg :: rest => if c == sep then [] :: seg :: rest else (c :: seg) :: rest

/-- `String.splitOn` restricted to one-character separators, structurally. -/
def strSplitOn (sep : Char) (s : String) : List String :=
  (splitChar sep s.toList).map String.mk

/-- Structural whitespace trim (JS `trim`). -/
def strTrim (s : String) : String :=
  String.mk (((s.toList.dropWhile Char.isWhitespace).reverse.dropWhile
    Char.isWhitespace).reverse)

/-- Structural `Array.prototype.join`-style interleaving. -/
def joinWith (sep : String) : List String → String
  | [] => ""
  | [x] => x
  | x :: y :: rest => x ++ sep ++ joinWith sep (y :: rest)

/-- Structural decimal parse (for the canvas width/height attributes). -/
def strToNat (s : String) : Option Nat :=
  if s.toList.isEmpty then none
  else s.toList.foldl (fun acc c =>
    match acc with
    | none => none
    | some n => if c.isDigit then some (n * 10 + (c.toNat - 48)) else none) (some 0)

/-- Attribute lookup (`getAttribute`). -/
def getAttr (n : DomNode) (key : String) : Option String :=
  match n with
  | .text _ => none
  | .elem _ attrs _ => attrs.lookup key

/-- `el.className` (empty for no class attribute). -/
def className (n : DomNode) : String := (getAttr n "class").getD ""

/-- Class-token membership, as matched by a `.token` selector. -/
def hasClassToken (n : DomNode) (c : String) : Bool :=
  (strSplitOn ' ' (className n)).contains c

/-- `[class*="sub"]`: substring of the raw class attribute. -/
def classContains (n : DomNode) (sub : String) : Bool := strHas (className n) sub

/-- The tag of an element (empty for text nodes). -/
def tagOf (n : DomNode) : String :=
  match n with
  | .text _ => ""
  | .elem tag _ _ => tag

/-- Attribute presence (`[attr]`). -/
def hasAttr (n : DomNode) (key : String) : Bool := (getAttr n key).isSome

mutual
/-- `el.textContent`: concatenation of all text descendants. -/
def textContent : DomNode → String
  | .text s => s
  | .elem _ _ cs => textContentL cs
def textContentL : NodeList → String
  | .nil => ""
  | .cons n rest => textContent n ++ textContentL rest
end

mutual
/-- All descendants in document (pre-)order — the search space of
`querySelectorAll` (the root itself excluded). -/
def descendants : DomNode → List DomNode
  | .text _ => []
  | .elem _ _ cs => descendantsL cs
def descendantsL : NodeList → List DomNode
  | .nil => []
  | .cons n rest => n :: descendants n ++ descendantsL rest
end

mutual
/-- Number of nodes of the tree (a removal-loop fuel bound). -/
def nodeCount : DomNode → Nat
  | .text _ => 1
  | .elem _ _ cs => 1 + nodeCountL cs
def nodeCountL : NodeList → Nat
  | .nil => 0
  | .cons n rest => nodeCount n + nodeCountL rest
end

/-- Serialised attribute list. -/
def serializeAttrs (attrs : List (String × String)) : String :=
  attrs.foldl (fun acc kv => acc ++ " " ++ kv.1 ++ "=\"" ++ kv.2 ++ "\"") ""

mutual
/-- `el.outerHTML` of the model tree. -/
def serializeN : DomNode → String
  | .text s => s
  | .elem tag attrs cs =>
    "<" ++ tag ++ serializeAttrs attrs ++ ">" ++ serializeL cs ++ "</" ++ tag ++ ">"
def serializeL : NodeList → String
  | .nil => ""
  | .cons n rest => serializeN n ++ serializeL rest
end

/-- `root.querySelector(sel)`: first matching descendant in document order. -/
def firstDesc (p : DomNode → Bool) (n : DomNode) : Option DomNode :=
  (descendants n).find? p

/-- Whether some descendant matches. -/
def hasDesc (p : DomNode → Bool) (n : DomNode) : Bool :=
  (descendants n).any p

/-- `document.getElementById` — first node (the root included) carrying
the id. -/
def getElementById (id : String) (doc : DomNode) : Option DomNode :=
  if getAttr doc "id" == some id then some doc
  else firstDesc (fun n => getAttr n "id" == some id) doc

/-- A declared property of the inline `style` attribute
(`el.style.position` reads). -/
def styleProp (n : DomNode) (prop : String) : Option String :=
  let decls := strSplitOn ';' ((getAttr n "style").getD "")
  decls.foldl (fun acc d =>
    match strSplitOn ':' d with
    | [k, v] => if strTrim k = prop then some (strTrim v) else acc
    | _ => acc) none

/-- The terminal-container selector
`.xterm, [class*="terminal"], [class*="Terminal"]`. -/
def isTerminalLike (n : DomNode) : Bool :=
  match n with
  | .text _ => false
  | .elem _ _ _ =>
    hasClassToken n "xterm" || classContains n "terminal" || classContains n "Terminal"

/-- The accessibility-layer selector
`.xterm-accessibility, [class*="accessibility"]`. -/
def isAccessibilityLayer (n : DomNode) : Bool :=
  match n with
  | .text _ => false
  | .elem _ _ _ => hasClassToken n "xterm-accessibility" || classContains n "accessibility"

/-- The accessibility row selector `[role="listitem"], div`. -/
def isAccessibilityRow (n : DomNode) : Bool :=
  match n with
  | .text _ => false
  | .elem _ _ _ => (getAttr n "role" == some "listitem") || tagOf n == "div"

mutual
/-- The `div > span` matches below one node, given whether that node is a
`div` (for `querySelectorAll` on the `.xterm-rows` layer): spans whose
parent element is a `div`, in document order. -/
def divSpans (pd : Bool) : DomNode → List DomNode
  | .text _ => []
  | .elem tag attrs cs =>
    (if tag == "span" && pd then [DomNode.elem tag attrs cs] else [])
      ++ divSpansL (tag == "div") cs
def divSpansL (pd : Bool) : NodeList → List DomNode
  | .nil => []
  | .cons n rest => divSpans pd n ++ divSpansL pd rest
end

/-- The open-brace character (JS `rowText.includes` on it). -/
def braceChar : Char := Char.ofNat 123

/-- Strategy 1 (lines 177-189): the xterm accessibility layer; one line per
row, rows that look like style/markup noise dropped. -/
def terminalStrat1 (container : DomNode) : String :=
  match firstDesc isAccessibilityLayer container with
  | none => ""
  | some layer =>
    let rows := (descendants layer).filter isAccessibilityRow
    let lines := rows.filterMap (fun row =>
      let rowText := textContent row
      if rowText ≠ "" && strTrim rowText ≠ "" && !rowText.toList.contains braceChar
          && !rowText.toList.contains ':' then some rowText else none)
    joinWith "\n" lines

/-- Strategy 2 (lines 191-209): the visible `.xterm-rows` text layer
(`div > span` rows), with a CSS-noise filter. -/
def terminalStrat2 (container : DomNode) : String :=
  match firstDesc (fun n => hasClassToken n "xterm-rows") container with
  | none => ""
  | some rowsLayer =>
    let rows :=
      match rowsLayer with
      | .text _ => []
      | .elem tag _ cs => divSpansL (tag == "div") cs
    let lines := rows.filterMap (fun row =>
      let rowText := textContent row
      if rowText ≠ "" && strTrim rowText ≠ "" && !rowText.toList.contains braceChar
          && !strHas rowText "background:" && !strHas rowText ".xterm"
        then some rowText else none)
    joinWith "\n" lines

/-- Strategy 3 (lines 211-221): a `pre, code` fallback, discarded when it
looks like leaked stylesheet text. -/
def terminalStrat3 (container : DomNode) : String :=
  match firstDesc (fun n => tagOf n == "pre" || tagOf n == "code") container with
  | none => ""
  | some preCode =>
    let text := textContent preCode
    if strHas text ".xterm" || strHas text "background:" then "" else text

/-- Per-container text recovery: the first of the three strategies yielding
non-empty trimmed text wins. -/
def extractTerminalText (container : DomNode) : String :=
  let t1 := terminalStrat1 container
  if strTrim t1 ≠ "" then t1
  else
    let t2 := terminalStrat2 container
    if strTrim t2 ≠ "" then t2
    else terminalStrat3 container

/-- The `terminalTexts` list (lines 171-231): index (in the pre-order list
of terminal-like containers) and trimmed recovered text for every
container whose recovery is non-empty. -/
def collectTerminalTexts (cascade : DomNode) : List (Nat × String) :=
  ((descendants cascade).filter isTerminalLike).enum.filterMap (fun it =>
    let text := extractTerminalText it.2
    if strTrim text ≠ "" then some (it.1, strTrim text) else none)

/-- The fixed monospace styling given to the substituted `pre` block
(lines 245-257, `pre.style.cssText`). -/
def terminalPreStyle : String :=
  "background: #1e1e1e; color: #d4d4d4; font-family: 'Consolas', 'Monaco', "
  ++ "'Courier New', monospace; font-size: 13px; line-height: 1.4; padding: 12px; "
  ++ "margin: 0; overflow-x: auto; white-space: pre-wrap; word-break: break-all; "
  ++ "border-radius: 6px;"

/-- The substituted `pre` element carrying a terminal's recovered text. -/
def mkTerminalPre (txt : String) : DomNode :=
  .elem "pre" [("style", terminalPreStyle)] (.cons (.text txt) .nil)

mutual
/-- Replace the first canvas descendant with `pre` and remove every further
canvas descendant (lines 260-268), threading a placed flag. -/
def replaceCanvases (pre : DomNode) (pl : Bool) : DomNode → DomNode × Bool
  | .text s => (.text s, pl)
  | .elem tag attrs cs =>
    let res := replaceCanvasesL pre pl cs
    (.elem tag attrs res.1, res.2)
def replaceCanvasesL (pre : DomNode) (pl : Bool) : NodeList → NodeList × Bool
  | .nil => (.nil, pl)
  | .cons n rest =>
    match n with
    | .elem tag attrs cs =>
      if tag == "canvas" then
        if pl then replaceCanvasesL pre true rest
        else
          let res := replaceCanvasesL pre true rest
          (.cons pre res.1, res.2)
      else
        let rn := replaceCanvases pre pl (.elem tag attrs cs)
        let res := replaceCanvasesL pre rn.2 rest
        (.cons rn.1 res.1, res.2)
    | .text s =>
      let res := replaceCanvasesL pre pl rest
      (.cons (.text s) res.1, res.2)
end

mutual
/-- Locate the `target`-th terminal-like element (pre-order counter) and
apply the canvas substitution inside it; when its subtree has no canvas
the substitution changes nothing and no `pre` is inserted
(the `canvases.length > 0` guard, line 261). -/
def replaceNthTerm (pre : DomNode) (target : Nat) : DomNode → Nat → DomNode × Nat
  | .text s, k => (.text s, k)
  | .elem tag attrs cs, k =>
    if isTerminalLike (.elem tag attrs cs) then
      if k = target then
        (.elem tag attrs (replaceCanvasesL pre false cs).1, k + 1)
      else
        let res := replaceNthTermL pre target cs (k + 1)
        (.elem tag attrs res.1, res.2)
    else
      let res := replaceNthTermL pre target cs k
      (.elem tag attrs res.1, res.2)
def replaceNthTermL (pre : DomNode) (target : Nat) : NodeList → Nat → NodeList × Nat
  | .nil, k => (.nil, k)
  | .cons n rest, k =>
    let rn := replaceNthTerm pre target n k
    let res := replaceNthTermL pre target rest rn.2
    (.cons rn.1 res.1, res.2)
end

/-- All terminal replacements, applied one item at a time in ascending
index order like the source's `terminalTexts.forEach` (lines 238-270). -/
def applyTerminalReplacements (texts : List (Nat × String)) (clone : DomNode) : DomNode :=
  texts.foldl (fun tree it => (replaceNthTerm (mkTerminalPre it.2) it.1 tree 0).1) clone

/-- `canvas.width` with the HTML default. -/
def canvasWidth (n : DomNode) : Nat := ((getAttr n "width").bind strToNat).getD 300

/-- `canvas.height` with the HTML default. -/
def canvasHeight (n : DomNode) : Nat := ((getAttr n "height").bind strToNat).getD 150

mutual
/-- Pre-order canvas census of the live tree: for every canvas descendant,
whether `canvas.closest` of the terminal selector finds something (self or
ancestor), plus its dimensions. -/
def canvasInfos (it : Bool) : DomNode → List (Bool × Nat × Nat)
  | .text _ => []
  | .elem tag attrs cs =>
    (if tag == "canvas"
     then [((it || isTerminalLike (.elem tag attrs cs)),
            canvasWidth (.elem tag attrs cs), canvasHeight (.elem tag attrs cs))]
     else [])
      ++ canvasInfosL (it || isTerminalLike (.elem tag attrs cs)) cs
def canvasInfosL (it : Bool) : NodeList → List (Bool × Nat × Nat)
  | .nil => []
  | .cons n rest => canvasInfos it n ++ canvasInfosL it rest
end

/-- The `canvasReplacements` list (lines 273-287): index and data URI for
every non-terminal canvas with nonzero dimensions whose rasterisation
(`toDataURL`, the `raster` oracle; `none` models a throw) yields a data
URI longer than 100 characters. -/
def canvasReplacements (raster : Nat → Option String) (cascade : DomNode) :
    List (Nat × String) :=
  (canvasInfos false cascade).enum.filterMap (fun it =>
    if it.2.1 then none
    else if 0 < it.2.2.1 && 0 < it.2.2.2 then
      match raster it.1 with
      | some dataUrl => if 100 < dataUrl.toList.length then some (it.1, dataUrl) else none
      | none => none
    else none)

/-- The substituted `img` element (lines 293-296). -/
def mkCanvasImg (dataUrl : String) : DomNode :=
  .elem "img" [("src", dataUrl), ("style", "display: block")] .nil

mutual
/-- Apply the canvas → img substitutions on the clone (lines 290-298): the
`k`-th canvas (pre-order, counted on the post-terminal-substitution clone,
matching the source's `clonedCanvases` query) is replaced when a
replacement with that index exists, otherwise left alone. -/
def applyCanvasReps (reps : List (Nat × String)) : DomNode → Nat → DomNode × Nat
  | .text s, k => (.text s, k)
  | .elem tag attrs cs, k =>
    if tag == "canvas" then
      match reps.lookup k with
      | some dataUrl => (mkCanvasImg dataUrl, k + 1)
      | none =>
        let res := applyCanvasRepsL reps cs (k + 1)
        (.elem tag attrs res.1, res.2)
    else
      let res := applyCanvasRepsL reps cs k
      (.elem tag attrs res.1, res.2)
def applyCanvasRepsL (reps : List (Nat × String)) : NodeList → Nat → NodeList × Nat
  | .nil, k => (.nil, k)
  | .cons n rest, k =>
    let rn := applyCanvasReps reps n k
    let res := applyCanvasRepsL reps rest rn.2
    (.cons rn.1 res.1, res.2)
end

mutual
/-- Remove every element (root excluded) matching `p`, top-down — the
static-NodeList `el.remove()` loops of the cleanup phase. -/
def removeAllN (p : DomNode → Bool) : DomNode → DomNode
  | .text s => .text s
  | .elem tag attrs cs => .elem tag attrs (removeAllL p cs)
def removeAllL (p : DomNode → Bool) : NodeList → NodeList
  | .nil => .nil
  | .cons n rest =>
    match n with
    | .text s => .cons (.text s) (removeAllL p rest)
    | .elem tag attrs cs =>
      if p (.elem tag attrs cs) then removeAllL p rest
      else .cons (.elem tag attrs (removeAllL p cs)) (removeAllL p rest)
end

/-- Index into a child list. -/
def nlGet : NodeList → Nat → Option DomNode
  | .nil, _ => none
  | .cons n _, 0 => some n
  | .cons _ rest, k + 1 => nlGet rest k

/-- Remove the child at an index. -/
def nlRemoveAt : NodeList → Nat → NodeList
  | .nil, _ => .nil
  | .cons _ rest, 0 => rest
  | .cons n rest, k + 1 => .cons n (nlRemoveAt rest k)

/-- Replace the child at an index. -/
def nlSetAt : NodeList → Nat → DomNode → NodeList
  | .nil, _, _ => .nil
  | .cons _ rest, 0, v => .cons v rest
  | .cons n rest, k + 1, v => .cons n (nlSetAt rest k v)

mutual
/-- Path (child-index list) to the first descendant matching `p`, in
document order. -/
def findPathN (p : DomNode → Bool) : DomNode → Option (List Nat)
  | .text _ => none
  | .elem _ _ cs => findPathL p cs 0
def findPathL (p : DomNode → Bool) : NodeList → Nat → Option (List Nat)
  | .nil, _ => none
  | .cons n rest, idx =>
    if p n then some [idx]
    else
      match findPathN p n with
      | some path => some (idx :: path)
      | none => findPathL p rest (idx + 1)
end

/-- The node at a child-index path. -/
def getAtPath (n : DomNode) : List Nat → Option DomNode
  | [] => some n
  | i :: rest =>
    match n with
    | .text _ => none
    | .elem _ _ cs =>
      match nlGet cs i with
      | some child => getAtPath child rest
      | none => none

/-- Remove the node at a (non-empty) child-index path. -/
def removeAtPath (n : DomNode) : List Nat → DomNode
  | [] => n
  | [i] =>
    match n with
    | .text s => .text s
    | .elem tag attrs cs => .elem tag attrs (nlRemoveAt cs i)
  | i :: j :: rest =>
    match n with
    | .text s => .text s
    | .elem tag attrs cs =>
      match nlGet cs i with
      | some child => .elem tag attrs (nlSetAt cs i (removeAtPath child (j :: rest)))
      | none => .elem tag attrs cs

/-- The `[contenteditable="true"]` test. -/
def isCETrue (n : DomNode) : Bool := getAttr n "contenteditable" == some "true"

/-- The `[contenteditable]` presence test (any value). -/
def isCE (n : DomNode) : Bool := hasAttr n "contenteditable"

/-- The input-bar container test of the first contenteditable walk
(lines 309-313): holds a contenteditable descendant and is marked as an
input/composer container by class name or sticky inline positioning. -/
def ceContainerCond (n : DomNode) : Bool :=
  hasDesc isCE n &&
    (strHas (className n) "input" || strHas (className n) "Input"
      || strHas (className n) "Composer" || styleProp n "position" == some "sticky")

/-- The bounded ancestor walk of the first contenteditable (lines 306-318):
starting from the parent (path with the last step dropped), up to five
levels, stopping at the clone root; returns the path of the container to
remove, if the test matches. -/
def ceWalk : Nat → DomNode → List Nat → Option (List Nat)
  | 0, _, _ => none
  | fuel + 1, clone, path =>
    if path = [] then none
    else
      match getAtPath clone path with
      | none => none
      | some container =>
        if ceContainerCond container then some path
        else ceWalk fuel clone path.dropLast

/-- Lines 303-323: find the first `[contenteditable="true"]`, try to remove
its marked ancestor container (at most five levels); if a
`[contenteditable="true"]` still remains, remove that element itself. -/
def removeCEFirst (clone : DomNode) : DomNode :=
  match findPathN isCETrue clone with
  | none => clone
  | some path =>
    let clone2 :=
      match ceWalk 5 clone path.dropLast with
      | some cpath => removeAtPath clone cpath
      | none => clone
    match findPathN isCETrue clone2 with
    | some path2 => removeAtPath clone2 path2
    | none => clone2

/-- The climbed removal path of the `[contenteditable]` loop
(lines 343-350): walk up at most five levels from the element, stopping
below the clone root, and remove the landed container. -/
def ceClimbPath (path : List Nat) : List Nat :=
  path.take (path.length - min 5 (path.length - 1))

/-- Lines 343-350 applied repeatedly: while some `[contenteditable]`
element remains, remove its climbed container (the source iterates a
static query list; removals of ancestors subsume their descendants). -/
def removeAllCE : Nat → DomNode → DomNode
  | 0, clone => clone
  | fuel + 1, clone =>
    match findPathN isCE clone with
    | none => clone
    | some path => removeAllCE fuel (removeAtPath clone (ceClimbPath path))

/-- The `textarea, input` test (line 326). -/
def isTextareaInput (n : DomNode) : Bool := tagOf n == "textarea" || tagOf n == "input"

/-- The feedback buttons removed by exact trimmed text (lines 331-338). -/
def isFeedbackButton (n : DomNode) : Bool :=
  tagOf n == "button" &&
    (strTrim (textContent n) == "Good" || strTrim (textContent n) == "Bad"
      || strTrim (textContent n) == "Accept all" || strTrim (textContent n) == "Reject all"
      || strTrim (textContent n) == "Review Changes")

/-- The `[class*="Composer"], [class*="composer"]` test (line 353). -/
def isComposerClass (n : DomNode) : Bool :=
  match n with
  | .text _ => false
  | .elem _ _ _ => classContains n "Composer" || classContains n "composer"

/-- The `[class*="InputBar"], [class*="inputBar"], [class*="input-bar"]`
test (line 354). -/
def isInputBarClass (n : DomNode) : Bool :=
  match n with
  | .text _ => false
  | .elem _ _ _ =>
    classContains n "InputBar" || classContains n "inputBar" || classContains n "input-bar"

/-- The `[class*="ChatInput"], [class*="chatInput"], [class*="chat-input"]`
test (line 355). -/
def isChatInputClass (n : DomNode) : Bool :=
  match n with
  | .text _ => false
  | .elem _ _ _ =>
    classContains n "ChatInput" || classContains n "chatInput" || classContains n "chat-input"

/-- The sticky-positioned element test by raw inline style text
(lines 358-363). -/
def hasStickyStyle (n : DomNode) : Bool :=
  match n with
  | .text _ => false
  | .elem _ _ _ =>
    strHas ((getAttr n "style").getD "") "position: sticky"
      || strHas ((getAttr n "style").getD "") "position:sticky"

/-- Index of the last element child (`lastElementChild`). -/
def lastElemIdx : NodeList → Option Nat
  | .nil => none
  | .cons n rest =>
    match lastElemIdx rest with
    | some k => some (k + 1)
    | none =>
      match n with
      | .elem _ _ _ => some 0
      | .text _ => none

/-- The message-marked content test
(`[class*="message"], [class*="Message"], [data-message]`, line 369). -/
def isMessageMarked (n : DomNode) : Bool :=
  match n with
  | .text _ => false
  | .elem _ _ _ =>
    classContains n "message" || classContains n "Message" || hasAttr n "data-message"

/-- The input-like content test
(`[contenteditable], [placeholder], button, select`, line 370). -/
def isInputLike (n : DomNode) : Bool :=
  isCE n || hasAttr n "placeholder" || tagOf n == "button" || tagOf n == "select"

/-- The structural last-child guard (lines 367-374): remove the last
element child when it holds input-like but no message-like descendants. -/
def lastChildGuard (clone : DomNode) : DomNode :=
  match clone with
  | .text s => .text s
  | .elem tag attrs cs =>
    match lastElemIdx cs with
    | none => .elem tag attrs cs
    | some k =>
      match nlGet cs k with
      | none => .elem tag attrs cs
      | some lastChild =>
        if !hasDesc isMessageMarked lastChild && hasDesc isInputLike lastChild
        then .elem tag attrs (nlRemoveAt cs k)
        else .elem tag attrs cs



/-! ## CSS capture (lines 376-398) -/

/-- The boundary class `[\s,}]` of the selector-rewrite regex (the
closing brace written out as a code point). -/
def isCssPre (c : Char) : Bool := c.isWhitespace || c = ',' || c = Char.ofNat 125

/-- The lookahead class `[\s,{]` of the selector-rewrite regex. -/
def isCssFollow (c : Char) : Bool := c.isWhitespace || c = ',' || c = Char.ofNat 123

/-- Case-insensitive prefix test (the regexes carry the `i` flag). -/
def ciIsPrefix : List Char → List Char → Bool
  | [], _ => true
  | _ :: _, [] => false
  | w :: ws, c :: cs => w.toLower == c.toLower && ciIsPrefix ws cs

/-- One global pass of `text.replace(/(^|[\s,}])word(?=[\s,{])/gi, repl)`:
`prevOk` records whether the position is the string start or follows a
boundary character; the lookahead is not consumed; after a replacement the
next boundary state is false (the replacement text ends in a letter). -/
def replaceWordGo (word repl : List Char) : Nat → Bool → List Char → List Char
  | 0, _, s => s
  | _ + 1, _, [] => []
  | fuel + 1, prevOk, c :: cs =>
    if prevOk && ciIsPrefix word (c :: cs) &&
        (match (c :: cs).drop word.length with
         | d :: _ => isCssFollow d
         | [] => false) then
      repl ++ replaceWordGo word repl fuel false ((c :: cs).drop word.length)
    else
      c :: replaceWordGo word repl fuel (isCssPre c) cs

/-- The selector rewrite applied to one rule text. -/
def replaceWord (word repl s : String) : String :=
  String.mk (replaceWordGo word.toList repl.toList (s.toList.length + 1) true s.toList)

/-- Lines 382-384: rewrite `body` then `html` selectors to
`#cascade-container`. -/
def rewriteRule (ruleText : String) : String :=
  replaceWord "html" "#cascade-container" (replaceWord "body" "#cascade-container" ruleText)

/-- Lines 378-388: concatenate the rewritten text of every accessible rule
(`none` models a sheet whose `cssRules` access throws and is skipped). -/
def buildCss (sheets : List (Option (List String))) : String :=
  sheets.foldl (fun css sheet =>
    match sheet with
    | none => css
    | some rules => rules.foldl (fun acc rule => acc ++ rewriteRule rule ++ "\n") css) ""

/-- Lines 390-398: the custom-property block captured from the computed
style of `document.body`. -/
def buildVariables (computed : List (String × String)) : String :=
  (computed.foldl (fun vars pv =>
    if "--".toList.isPrefixOf pv.1.toList then vars ++ pv.1 ++ ": " ++ pv.2 ++ ";" else vars)
    ":root \x7b") ++ "\x7d"

/-- The page-level inputs of the capture script: accessible style sheets,
the computed style of `document.body` (property, value - the custom
properties among them feed the `:root` block), the body's resolved colors,
and the per-canvas `toDataURL` rasterisation oracle. -/
structure PageEnv where
  styleSheets : List (Option (List String))
  computed : List (String × String)
  backgroundColor : String
  color : String
  raster : Nat → Option String

/-- The value of the capture expression: an error marker or a chat payload
(lines 164 and 400-405). -/
inductive CaptureValue where
  | error (msg : String)
  | ok (chat : Chat)

/-- The complete clone transformation pipeline of the capture script
applied to the located cascade element, in source order: terminal canvas
substitution (lines 168-270), remaining-canvas rasterisation substitution
(lines 273-298), first-contenteditable container removal (303-323),
textarea/input removal (326), feedback-button removal (331-338),
placeholder and data-placeholder removal (341-342), the contenteditable
climb-and-remove loop (343-350), composer / input-bar / chat-input class
removal (353-355), sticky-style removal (358-363), and the last-child
structural guard (367-374). -/
def transformCascade (raster : Nat → Option String) (cascade : DomNode) : DomNode :=
  let clone1 := applyTerminalReplacements (collectTerminalTexts cascade) cascade
  let clone2 := (applyCanvasReps (canvasReplacements raster cascade) clone1 0).1
  let clone3 := removeCEFirst clone2
  let clone4 := removeAllN isTextareaInput clone3
  let clone5 := removeAllN isFeedbackButton clone4
  let clone6 := removeAllN (fun n => hasAttr n "placeholder") clone5
  let clone7 := removeAllN (fun n => hasAttr n "data-placeholder") clone6
  let clone8 := removeAllCE (nodeCount clone7) clone7
  let clone9 := removeAllN isComposerClass clone8
  let clone10 := removeAllN isInputBarClass clone9
  let clone11 := removeAllN isChatInputClass clone10
  let clone12 := removeAllN hasStickyStyle clone11
  lastChildGuard clone12

/-- The capture `SCRIPT` (lines 162-406) as a pure function of the page:
locate the cascade root (error if absent), transform its clone, and return
the serialised markup together with the captured styling. -/
def captureScript (pe : PageEnv) (doc : DomNode) : CaptureValue :=
  match getElementById "cascade" doc with
  | none => .error "cascade not found"
  | some cascade =>
    .ok ⟨serializeN (transformCascade pe.raster cascade),
         buildVariables pe.computed ++ buildCss pe.styleSheets,
         pe.backgroundColor, pe.color⟩

/-! ## The synthetic terminal document of C8 -/

/-- First accessibility row: `ls -la`. -/
def accRow1 : DomNode := .elem "div" [("role", "listitem")] (.cons (.text "ls -la") .nil)

/-- Second accessibility row: `total 0`. -/
def accRow2 : DomNode := .elem "div" [("role", "listitem")] (.cons (.text "total 0") .nil)

/-- The populated xterm accessibility layer. -/
def accLayer : DomNode :=
  .elem "div" [("class", "xterm-accessibility")] (.cons accRow1 (.cons accRow2 .nil))

/-- The canvas surface of the terminal (WebGL rendering, not capturable). -/
def termCanvas : DomNode :=
  .elem "canvas" [("class", "xterm-text-layer"), ("width", "800"), ("height", "600")] .nil

/-- The terminal-like container (class token `xterm`). -/
def termContainer : DomNode :=
  .elem "div" [("class", "xterm")] (.cons accLayer (.cons termCanvas .nil))

/-- The chat root holding one terminal-like container. -/
def synthCascade : DomNode := .elem "div" [("id", "cascade")] (.cons termContainer .nil)

/-- The synthetic document. -/
def synthDoc : DomNode := .elem "body" [] (.cons synthCascade .nil)

/-- A page environment with no style sheets and a rasteriser that throws. -/
def synthEnv : PageEnv := ⟨[], [], "rgb(30, 30, 30)", "rgb(212, 212, 212)", fun _ => none⟩

/-! ## Helper lemmas about the poll cycle -/

/-- Helper: a poll cycle never touches the consumer callback. -/
theorem poll_onChatUpdate (p : Nat → EvalResult) (c : Nat → CaptureOutcome)
    (t : Chat → Bool) (st : ModuleState) :
    (poll p c t st).1.onChatUpdate = st.onChatUpdate := by
  unfold poll
  repeat' split
  all_goals rfl

/-- Helper: a poll cycle never touches the timer handle. -/
theorem poll_pollInterval (p : Nat → EvalResult) (c : Nat → CaptureOutcome)
    (t : Chat → Bool) (st : ModuleState) :
    (poll p c t st).1.pollInterval = st.pollInterval := by
  unfold poll
  repeat' split
  all_goals rfl

/-- Helper: an emission (normal or throwing) passes the fingerprint gate and
records the new fingerprint. -/
theorem poll_emit_spec (p : Nat → EvalResult) (c : Nat → CaptureOutcome)
    (t : Chat → Bool) (st : ModuleState) (ch : Chat) :
    (poll p c t st).2 = .emitted ch ∨ (poll p c t st).2 = .threw ch →
    st.lastHash ≠ some (hashString ch.html) ∧
    (poll p c t st).1.lastHash = some (hashString ch.html) := by
  intro h
  unfold poll at *
  rcases h with h | h <;> (repeat' split at h) <;> simp_all

/-- Helper: on a started stream a skipped cycle leaves the fingerprint alone. -/
theorem poll_skip_lastHash (p : Nat → EvalResult) (c : Nat → CaptureOutcome)
    (t : Chat → Bool) (st : ModuleState) (hcb : st.onChatUpdate.isSome = true) :
    (poll p c t st).2 = .skip → (poll p c t st).1.lastHash = st.lastHash := by
  intro h
  unfold poll at *
  repeat' split at h
  all_goals simp_all



/-- Helper: the full invariant of a run of poll cycles on a started stream:
emissions are consecutively-distinct in fingerprint, the first emission's
fingerprint differs from the initial `lastHash`, and `lastHash` ends at the
initial value (no emissions) or at the fingerprint of the last emission. -/
theorem pollRun_invariant (envs : List CycleEnv) (st : ModuleState)
    (hcb : st.onChatUpdate.isSome = true) :
    List.Chain' (fun a b => hashString a.html ≠ hashString b.html) (pollRun envs st).2 ∧
    (∀ ch, (pollRun envs st).2.head? = some ch → st.lastHash ≠ some (hashString ch.html)) ∧
    ((pollRun envs st).2 = [] → (pollRun envs st).1.lastHash = st.lastHash) ∧
    (∀ ch, (pollRun envs st).2.getLast? = some ch →
      (pollRun envs st).1.lastHash = some (hashString ch.html)) := by
  induction envs generalizing st with
  | nil => simp [pollRun]
  | cons e es ih =>
    have hcb1 : (poll e.probe e.capture e.cbThrows st).1.onChatUpdate.isSome = true := by
      rw [poll_onChatUpdate]; exact hcb
    obtain ⟨ih1, ih2, ih3, ih4⟩ := ih (poll e.probe e.capture e.cbThrows st).1 hcb1
    cases hev : (poll e.probe e.capture e.cbThrows st).2 with
    | skip =>
      have hlh := poll_skip_lastHash e.probe e.capture e.cbThrows st hcb hev
      refine ⟨?_, ?_, ?_, ?_⟩
      · simpa [pollRun, hev, emitsOf] using ih1
      · intro ch hch
        have := ih2 ch (by simpa [pollRun, hev, emitsOf] using hch)
        rw [hlh] at this; exact this
      · intro hnil
        have : (pollRun es (poll e.probe e.capture e.cbThrows st).1).2 = [] := by
          simpa [pollRun, hev, emitsOf] using hnil
        simp only [pollRun]
        rw [ih3 this, hlh]
      · intro ch hch
        have := ih4 ch (by simpa [pollRun, hev, emitsOf] using hch)
        simpa [pollRun] using this
    | emitted ch0 =>
      obtain ⟨hgate, hupd⟩ := poll_emit_spec e.probe e.capture e.cbThrows st ch0 (Or.inl hev)
      refine ⟨?_, ?_, ?_, ?_⟩
      · simp only [pollRun, hev, emitsOf, List.singleton_append]
        rw [List.chain'_cons']
        constructor
        · intro b hb
          have := ih2 b hb
          rw [hupd] at this
          intro hcontra
          exact this (by rw [hcontra])
        · simpa [pollRun, hev, emitsOf] using ih1
      · intro ch hch
        simp only [pollRun, hev, emitsOf, List.singleton_append, List.head?_cons] at hch
        cases hch
        exact hgate
      · intro hnil
        simp [pollRun, hev, emitsOf] at hnil
      · intro ch hch
        simp only [pollRun, hev, emitsOf, List.singleton_append] at hch ⊢
        rcases hrest : (pollRun es (poll e.probe e.capture e.cbThrows st).1).2 with _ | ⟨r, rs⟩
        · rw [hrest] at hch
          simp only [List.getLast?_singleton] at hch
          cases hch
          rw [ih3 hrest, hupd]
        · rw [hrest] at hch
          have : (ch0 :: r :: rs).getLast? = (r :: rs).getLast? := List.getLast?_cons_cons ..
          rw [this] at hch
          exact ih4 ch (by rw [hrest]; exact hch)
    | threw ch0 =>
      obtain ⟨hgate, hupd⟩ := poll_emit_spec e.probe e.capture e.cbThrows st ch0 (Or.inr hev)
      refine ⟨?_, ?_, ?_, ?_⟩
      · simp only [pollRun, hev, emitsOf, List.singleton_append]
        rw [List.chain'_cons']
        constructor
        · intro b hb
          have := ih2 b hb
          rw [hupd] at this
          intro hcontra
          exact this (by rw [hcontra])
        · simpa [pollRun, hev, emitsOf] using ih1
      · intro ch hch
        simp only [pollRun, hev, emitsOf, List.singleton_append, List.head?_cons] at hch
        cases hch
        exact hgate
      · intro hnil
        simp [pollRun, hev, emitsOf] at hnil
      · intro ch hch
        simp only [pollRun, hev, emitsOf, List.singleton_append] at hch ⊢
        rcases hrest : (pollRun es (poll e.probe e.capture e.cbThrows st).1).2 with _ | ⟨r, rs⟩
        · rw [hrest] at hch
          simp only [List.getLast?_singleton] at hch
          cases hch
          rw [ih3 hrest, hupd]
        · rw [hrest] at hch
          have : (ch0 :: r :: rs).getLast? = (r :: rs).getLast? := List.getLast?_cons_cons ..
          rw [this] at hch
          exact ih4 ch (by rw [hrest]; exact hch)

/-! ## Claims C1, C2, C4, C6, C7 -/

/-- Helper: a probe that throws in every context makes the scan come up empty. -/
theorem scanContexts_throws (l : List Nat) :
    scanContexts (fun _ => EvalResult.throws) l = none := by
  induction l with
  | nil => rfl
  | cons c rest ih => simpa [scanContexts] using ih

/-- Helper: a probe that throws in every context makes the locator return none. -/
theorem findCascadeContext_throws (cdp : CDP) :
    (findCascadeContext (fun _ => EvalResult.throws) cdp).2 = none := by
  unfold findCascadeContext
  repeat' split
  all_goals simp_all [scanContexts_throws]

/-- Helper: a cycle whose outcome is `threw` had its consumer callback throw. -/
theorem poll_threw_cb (p : Nat → EvalResult) (c : Nat → CaptureOutcome)
    (t : Chat → Bool) (st : ModuleState) (ch : Chat) :
    (poll p c t st).2 = .threw ch → t ch = true := by
  intro h
  unfold poll at h
  repeat' split at h
  all_goals simp_all

/-- Helper: every element produced by the discovery loop satisfies the
workbench filter and is tagged with one of the probed ports. -/
theorem mem_findTargetsAux (resp : Nat → PortResponse) (ps : List Nat) (tg : Target)
    (h : tg ∈ findTargetsAux resp ps) : pageMatches (entryOf tg) = true ∧ tg.port ∈ ps := by
  induction ps with
  | nil => simp [findTargetsAux] at h
  | cons p ps ih =>
    simp only [findTargetsAux, List.mem_append] at h
    rcases h with h | h
    · cases hr : resp p with
      | closed => rw [hr] at h; simp at h
      | pages l =>
        rw [hr] at h
        simp only [List.mem_map] at h
        obtain ⟨t, ht, rfl⟩ := h
        refine ⟨?_, by simp [tagTarget]⟩
        have hm := List.of_mem_filter ht
        simpa [entryOf, tagTarget] using hm
    · obtain ⟨h1, h2⟩ := ih h
      exact ⟨h1, List.mem_cons_of_mem _ h2⟩

/-- C1: over any sequence of poll cycles of a started stream (a registered
consumer callback), the poller invokes the consumer at most once per cycle;
the fingerprint of every emission differs from the fingerprint of the
immediately preceding emission (no two consecutive emissions carry equal
fingerprints); and the first emission's fingerprint differs from the
initially recorded one (`none` models "no snapshot emitted yet"). -/
theorem poll_emission_gated (envs : List CycleEnv) (st : ModuleState)
    (hcb : st.onChatUpdate.isSome = true) :
    (∀ (e : CycleEnv) (s : ModuleState),
      (emitsOf (poll e.probe e.capture e.cbThrows s).2).length ≤ 1) ∧
    List.Chain' (fun a b => hashString a.html ≠ hashString b.html) (pollRun envs st).2 ∧
    (∀ ch, (pollRun envs st).2.head? = some ch → st.lastHash ≠ some (hashString ch.html)) := by
  refine ⟨?_, (pollRun_invariant envs st hcb).1, (pollRun_invariant envs st hcb).2.1⟩
  intro e s
  cases (poll e.probe e.capture e.cbThrows s).2 <;> simp [emitsOf]

/-- C1 witness: a concrete two-cycle run of a started stream. -/
theorem poll_emission_gated_witness :
    (⟨some ⟨0, [3], none⟩, some 1, some 10, none⟩ : ModuleState).onChatUpdate.isSome = true ∧
    List.Chain' (fun a b => hashString a.html ≠ hashString b.html)
      (pollRun
        [⟨fun _ => .value true, fun _ => .ok ⟨"<p>w</p>", "", "", ""⟩, fun _ => false⟩,
         ⟨fun _ => .value true, fun _ => .ok ⟨"<p>w2</p>", "", "", ""⟩, fun _ => false⟩]
        ⟨some ⟨0, [3], none⟩, some 1, some 10, none⟩).2 :=
  ⟨rfl,
   (poll_emission_gated
      [⟨fun _ => .value true, fun _ => .ok ⟨"<p>w</p>", "", "", ""⟩, fun _ => false⟩,
       ⟨fun _ => .value true, fun _ => .ok ⟨"<p>w2</p>", "", "", ""⟩, fun _ => false⟩]
      ⟨some ⟨0, [3], none⟩, some 1, some 10, none⟩ rfl).2.1⟩

/-- C2 counterexample: with a cached context id 5 whose probe reports
found=false and an empty live context set, the locator falls through to
the scan and returns none, but the cache is NOT cleared: it still holds
the stale id 5, refuting the claim that the cache is set to none before
the fall-through whenever the probe reports found=false. -/
theorem findCascadeContext_foundFalse_keeps_cache :
    (findCascadeContext (fun _ => EvalResult.value false) ⟨0, [], some 5⟩).2 = none ∧
    (findCascadeContext (fun _ => EvalResult.value false) ⟨0, [], some 5⟩).1.cascadeContextId
      = some 5 := by
  exact ⟨rfl, rfl⟩

/-- C2 amended: with a truthy cached context id, the cached id is returned
iff the probe reports found=true; a probe that throws clears the cache and
falls through to the scan (the cache then holds exactly the scan's
result); a probe reporting found=false falls through to the scan with the
cache left in place — the scan overwrites it only when it finds a context,
otherwise the stale cached id survives. -/
theorem findCascadeContext_cache_policy (probe : Nat → EvalResult) (cdp : CDP) (cid : Nat)
    (hc : cdp.cascadeContextId = some cid) (hnz : cid ≠ 0) :
    (probe cid = .value true → findCascadeContext probe cdp = (cdp, some cid)) ∧
    (probe cid = .throws →
      (findCascadeContext probe cdp).1.cascadeContextId = scanContexts probe cdp.contexts ∧
      (findCascadeContext probe cdp).2 = scanContexts probe cdp.contexts) ∧
    (probe cid = .value false →
      (findCascadeContext probe cdp).2 = scanContexts probe cdp.contexts ∧
      (findCascadeContext probe cdp).1.cascadeContextId =
        (match scanContexts probe cdp.contexts with
         | some found => some found
         | none => some cid)) := by
  have hbne : (cid != 0) = true := by simpa using hnz
  refine ⟨?_, ?_, ?_⟩ <;> intro hp <;>
    (unfold findCascadeContext; rw [hc]; simp only [hbne, if_true, hp]) <;>
    cases hscan : scanContexts probe cdp.contexts <;> simp [hscan, hc]

/-- C2 witness: cached id 5 probes found=false, the scan finds context 3;
the locator returns 3 and the cache is overwritten by the scan. -/
theorem findCascadeContext_cache_policy_witness :
    ((⟨0, [3], some 5⟩ : CDP).cascadeContextId = some 5) ∧
    ((fun n => if n = 5 then EvalResult.value false else .value true) 5 = .value false) ∧
    ((findCascadeContext (fun n => if n = 5 then EvalResult.value false else .value true)
        ⟨0, [3], some 5⟩).2
      = scanContexts (fun n => if n = 5 then EvalResult.value false else .value true) [3] ∧
     (findCascadeContext (fun n => if n = 5 then EvalResult.value false else .value true)
        ⟨0, [3], some 5⟩).1.cascadeContextId =
        (match scanContexts (fun n => if n = 5 then EvalResult.value false else .value true) [3] with
         | some found => some found
         | none => some 5)) :=
  ⟨rfl, rfl,
   (findCascadeContext_cache_policy
      (fun n => if n = 5 then EvalResult.value false else .value true)
      ⟨0, [3], some 5⟩ 5 rfl (by decide)).2.2 rfl⟩

/-- C4 counterexample: a cycle in which the located capture succeeds with
fresh content and the consumer callback throws.  The cycle is NOT
equivalent to a skipped cycle: the callback is invoked and its exception
escapes the cycle function (`threw`), and the stored fingerprint has
already been updated, refuting "an exception thrown at any stage —
including by the consumer callback — is absorbed and the cycle behaves
exactly as a skipped cycle". -/
theorem poll_callback_exception_escapes :
    (poll (fun _ => .value true) (fun _ => .ok ⟨"<p>hi</p>", "", "", ""⟩) (fun _ => true)
        ⟨some ⟨0, [], some 7⟩, some 1, some 10, none⟩).2
      = .threw ⟨"<p>hi</p>", "", "", ""⟩ ∧
    (poll (fun _ => .value true) (fun _ => .ok ⟨"<p>hi</p>", "", "", ""⟩) (fun _ => true)
        ⟨some ⟨0, [], some 7⟩, some 1, some 10, none⟩).1.lastHash
      ≠ (⟨some ⟨0, [], some 7⟩, some 1, some 10, none⟩ : ModuleState).lastHash := by
  constructor
  · rfl
  · decide

/-- C4 amended: exceptions in the locate and capture stages are absorbed
(the cycle is a skipped cycle, fingerprint untouched), the timer handle
and consumer registration are never touched by a cycle — but an exception
thrown by the consumer callback itself is not absorbed: the cycle rejects
(`threw`), and only after the fingerprint has been updated to the emitted
snapshot's. -/
theorem poll_exception_policy (p : Nat → EvalResult) (c : Nat → CaptureOutcome)
    (t : Chat → Bool) (st : ModuleState) :
    ((poll (fun _ => EvalResult.throws) c t st).2 = .skip) ∧
    ((poll p (fun _ => CaptureOutcome.throws) t st).2 = .skip) ∧
    (st.onChatUpdate.isSome = true → (poll p c t st).2 = .skip →
      (poll p c t st).1.lastHash = st.lastHash) ∧
    (∀ ch, (poll p c t st).2 = .threw ch →
      t ch = true ∧ (poll p c t st).1.lastHash = some (hashString ch.html) ∧
      st.lastHash ≠ some (hashString ch.html)) ∧
    (poll p c t st).1.pollInterval = st.pollInterval ∧
    (poll p c t st).1.onChatUpdate = st.onChatUpdate := by
  refine ⟨?_, ?_, ?_, ?_, poll_pollInterval p c t st, poll_onChatUpdate p c t st⟩
  · cases hconn : st.connection with
    | none => simp [poll, hconn]
    | some conn =>
      have h2 := findCascadeContext_throws conn
      rcases hfc : findCascadeContext (fun _ => EvalResult.throws) conn with ⟨conn2, octx⟩
      rw [hfc] at h2
      simp only at h2
      subst h2
      simp [poll, hconn, hfc]
  · unfold poll
    repeat' split
    all_goals (first | rfl | simp_all [captureChat])
  · exact fun hcb => poll_skip_lastHash p c t st hcb
  · intro ch h
    exact ⟨poll_threw_cb p c t st ch h,
           (poll_emit_spec p c t st ch (Or.inr h)).2,
           (poll_emit_spec p c t st ch (Or.inr h)).1⟩

/-- C4 witness: a concrete throwing-consumer cycle instantiating the
amended policy. -/
theorem poll_exception_policy_witness :
    ((poll (fun _ => .value true) (fun _ => .ok ⟨"<p>hi2</p>", "", "", ""⟩) (fun _ => true)
        ⟨some ⟨0, [], some 7⟩, some 2, some 11, none⟩).2
      = .threw ⟨"<p>hi2</p>", "", "", ""⟩) ∧
    ((fun (_ : Chat) => true) (⟨"<p>hi2</p>", "", "", ""⟩ : Chat) = true ∧
     (poll (fun _ => .value true) (fun _ => .ok ⟨"<p>hi2</p>", "", "", ""⟩) (fun _ => true)
        ⟨some ⟨0, [], some 7⟩, some 2, some 11, none⟩).1.lastHash
       = some (hashString (⟨"<p>hi2</p>", "", "", ""⟩ : Chat).html) ∧
     (⟨some ⟨0, [], some 7⟩, some 2, some 11, none⟩ : ModuleState).lastHash
       ≠ some (hashString (⟨"<p>hi2</p>", "", "", ""⟩ : Chat).html)) :=
  ⟨rfl,
   (poll_exception_policy (fun _ => .value true)
      (fun _ => .ok ⟨"<p>hi2</p>", "", "", ""⟩) (fun _ => true)
      ⟨some ⟨0, [], some 7⟩, some 2, some 11, none⟩).2.2.2.1
     ⟨"<p>hi2</p>", "", "", ""⟩ rfl⟩

/-- C6: the fingerprint is deterministic — equal html strings always have
equal fingerprints — and consequently a captured snapshot whose html
fingerprint equals the recorded one never produces a spurious update: the
cycle emits nothing. -/
theorem hashString_deterministic (s t : String) (h : s = t) :
    hashString s = hashString t ∧
    (∀ (p : Nat → EvalResult) (cb : Chat → Bool) (st : ModuleState) (chat : Chat),
      st.lastHash = some (hashString chat.html) →
      (poll p (fun _ => .ok chat) cb st).2 = .skip) := by
  constructor
  · rw [h]
  · intro p cb st chat hlh
    unfold poll
    repeat' split
    all_goals (first | rfl | simp_all [captureChat])

/-- C6 witness: determinism at a concrete string and no spurious update at
a concrete already-seen snapshot. -/
theorem hashString_deterministic_witness :
    hashString "<div>abc</div>" = hashString "<div>abc</div>" ∧
    (poll (fun _ => .value true) (fun _ => .ok ⟨"<q>q</q>", "", "", ""⟩) (fun _ => false)
        ⟨some ⟨0, [], some 7⟩, some 1, some 10, some (hashString "<q>q</q>")⟩).2 = .skip :=
  ⟨(hashString_deterministic "<div>abc</div>" "<div>abc</div>" rfl).1,
   (hashString_deterministic "" "" rfl).2 (fun _ => .value true) (fun _ => false)
     ⟨some ⟨0, [], some 7⟩, some 1, some 10, some (hashString "<q>q</q>")⟩
     ⟨"<q>q</q>", "", "", ""⟩ rfl⟩

/-- C7: discovery returns exactly the matching entries of each responsive
port, tagged with their port, in port order with within-port order
preserved (it equals the port-ordered flattening of the per-port retained
lists); every returned target passes the permissive filter and is tagged
with a probed port; and with every port closed or erroring it returns the
empty list (it is a total function — it never throws). -/
theorem findTargets_characterized (resp : Nat → PortResponse) :
    findTargets resp = (CDP_PORTS.map (portTargetsSpec resp)).flatten ∧
    (∀ tg ∈ findTargets resp, pageMatches (entryOf tg) = true ∧ tg.port ∈ CDP_PORTS) ∧
    ((∀ p, resp p = .closed) → findTargets resp = []) := by
  refine ⟨rfl, ?_, ?_⟩
  · intro tg htg
    exact mem_findTargetsAux resp CDP_PORTS tg htg
  · intro h
    simp [findTargets, CDP_PORTS, findTargetsAux, h]

/-- C7 witness: one closed port, one port with a matching page; the result
is that page tagged with its port, and the all-closed worst case is empty. -/
theorem findTargets_characterized_witness :
    ((⟨some "http://h/workbench.html", some "W", some "page", "ws://h", 9000⟩ : Target)
        ∈ findTargets (fun p =>
          if p = 9000
          then .pages [⟨some "http://h/workbench.html", some "W", some "page", "ws://h"⟩]
          else .closed)) ∧
    (pageMatches (entryOf ⟨some "http://h/workbench.html", some "W", some "page", "ws://h", 9000⟩)
        = true ∧
      (⟨some "http://h/workbench.html", some "W", some "page", "ws://h", 9000⟩ : Target).port
        ∈ CDP_PORTS) ∧
    findTargets (fun _ => .closed) = [] :=
  ⟨by decide,
   (findTargets_characterized (fun p =>
      if p = 9000
      then .pages [⟨some "http://h/workbench.html", some "W", some "page", "ws://h"⟩]
      else .closed)).2.1
     ⟨some "http://h/workbench.html", some "W", some "page", "ws://h", 9000⟩ (by decide),
   (findTargets_characterized (fun _ => .closed)).2.2 (fun _ => rfl)⟩

/-! ## Claims C3, C5, C9, C10 -/

/-- Helper: erasing a freshly appended element restores the list. -/
theorem erase_append_singleton (l : List Nat) (a : Nat) (h : a ∉ l) :
    (l ++ [a]).erase a = l := by
  rw [List.erase_append_right _ h, List.erase_cons_head, List.append_nil]

/-- Helper: the locator never changes the session's socket. -/
theorem findCascadeContext_sock (probe : Nat → EvalResult) (cdp : CDP) :
    (findCascadeContext probe cdp).1.sock = cdp.sock := by
  unfold findCascadeContext
  repeat' split
  all_goals rfl

/-- Helper: when every attempted target fails to locate a cascade context,
the target loop leaves the module state untouched and reports the
structured failure. -/
theorem tryTargets_all_fail (env : Target → ConnEnv) (timerId : Nat) (ts : List Target)
    (st : ModuleState) (w : World) :
    ts.all (fun tg => locateFails (env tg)) = true →
    (tryTargets env timerId ts st w).1 = st ∧
    (tryTargets env timerId ts st w).2.2 =
      ⟨false, none, some "No cascade element found in any target"⟩ := by
  induction ts generalizing w with
  | nil => exact fun _ => ⟨rfl, rfl⟩
  | cons t rest ih =>
    intro h
    rw [List.all_cons, Bool.and_eq_true] at h
    obtain ⟨h1, h2⟩ := h
    unfold locateFails at h1
    cases henv : (env t).connect with
    | none =>
      simp only [tryTargets, henv]
      exact ih w h2
    | some cdp =>
      rw [henv] at h1
      dsimp only at h1
      rcases hfc : findCascadeContext (env t).probe cdp with ⟨cdp2, octx⟩
      rw [hfc] at h1
      dsimp only at h1
      cases octx with
      | none =>
        simp only [tryTargets, henv, hfc]
        exact ih _ h2
      | some c =>
        simp only at h1
        have hc : c = 0 := by simpa using h1
        simp only [tryTargets, henv, hfc, hc]
        simp only [ne_eq, not_true_eq_false, if_false]
        exact ih _ h2

/-- Helper: the target loop never cancels a timer and never closes a socket
other than those of its own failed attempts; on success it appends the new
timer and installs it in the module state. -/
theorem tryTargets_resources (env : Target → ConnEnv) (timerId : Nat) (ts : List Target)
    (st : ModuleState) (w : World) (t0 s0 : Nat)
    (ht : t0 ∈ w.timers) (hs : s0 ∈ w.openSockets)
    (hfresh : ts.all (fun tg => match (env tg).connect with
      | none => true
      | some cdp => cdp.sock != s0) = true) :
    t0 ∈ (tryTargets env timerId ts st w).2.1.timers ∧
    s0 ∈ (tryTargets env timerId ts st w).2.1.openSockets ∧
    ((tryTargets env timerId ts st w).2.2.success = true →
      timerId ∈ (tryTargets env timerId ts st w).2.1.timers ∧
      (tryTargets env timerId ts st w).1.pollInterval = some timerId) := by
  induction ts generalizing st w with
  | nil =>
    refine ⟨ht, hs, ?_⟩
    intro hsucc
    simp [tryTargets] at hsucc
  | cons t rest ih =>
    rw [List.all_cons, Bool.and_eq_true] at hfresh
    obtain ⟨hf1, hf2⟩ := hfresh
    cases henv : (env t).connect with
    | none =>
      simp only [tryTargets, henv]
      exact ih st w ht hs hf2
    | some cdp =>
      rw [henv] at hf1
      have hne : s0 ≠ cdp.sock := fun heq => by simp [heq] at hf1
      rcases hfc : findCascadeContext (env t).probe cdp with ⟨cdp2, octx⟩
      cases octx with
      | none =>
        simp only [tryTargets, henv, hfc]
        refine ih st _ ht ?_ hf2
        rw [(List.mem_erase_of_ne hne : s0 ∈ (w.openSockets ++ [cdp.sock]).erase cdp.sock ↔ _)]
        exact List.mem_append_left _ hs
      | some c =>
        by_cases hc : c = 0
        · simp only [tryTargets, henv, hfc, hc, ne_eq, not_true_eq_false, if_false]
          refine ih st _ ht ?_ hf2
          rw [(List.mem_erase_of_ne hne : s0 ∈ (w.openSockets ++ [cdp.sock]).erase cdp.sock ↔ _)]
          exact List.mem_append_left _ hs
        · rcases hpoll : poll (env t).probe (env t).capture (env t).cbThrows
              { st with connection := some cdp2 } with ⟨st2, ev⟩
          cases ev with
          | threw ch =>
            simp only [tryTargets, henv, hfc, if_pos hc, hpoll]
            exact ih st2 _ ht (List.mem_append_left _ hs) hf2
          | skip =>
            simp only [tryTargets, henv, hfc, if_pos hc, hpoll]
            refine ⟨List.mem_append_left _ ht, List.mem_append_left _ hs, fun _ => ⟨?_, ?_⟩⟩
            · exact List.mem_append_right _ (List.mem_singleton.mpr rfl)
            · first | rfl | trivial
          | emitted ch =>
            simp only [tryTargets, henv, hfc, if_pos hc, hpoll]
            refine ⟨List.mem_append_left _ ht, List.mem_append_left _ hs, fun _ => ⟨?_, ?_⟩⟩
            · exact List.mem_append_right _ (List.mem_singleton.mpr rfl)
            · first | rfl | trivial

/-- Helper: the ephemeral snapshot loop restores the world (every socket it
opens is fresh and closed again before it moves on or returns). -/
theorem snapshotLoop_world (env : Target → ConnEnv) (ts : List Target) (w : World) :
    ts.all (fun tg => match (env tg).connect with
      | none => true
      | some cdp => !(w.openSockets.contains cdp.sock)) = true →
    (snapshotLoop env ts w).1 = w := by
  induction ts with
  | nil => exact fun _ => rfl
  | cons t rest ih =>
    intro h
    rw [List.all_cons, Bool.and_eq_true] at h
    obtain ⟨h1, h2⟩ := h
    cases henv : (env t).connect with
    | none =>
      simp only [snapshotLoop, henv]
      exact ih h2
    | some cdp =>
      rw [henv] at h1
      dsimp only at h1
      have hnm : cdp.sock ∉ w.openSockets := by
        intro hmem
        have hcont : w.openSockets.contains cdp.sock = true := List.elem_eq_true_of_mem hmem
        rw [hcont] at h1
        simp at h1
      rcases hfc : findCascadeContext (env t).probe cdp with ⟨cdp2, octx⟩
      have hrestore : (w.openSockets ++ [cdp.sock]).erase cdp.sock = w.openSockets :=
        erase_append_singleton _ _ hnm
      cases octx with
      | none =>
        simp only [snapshotLoop, henv, hfc, hrestore]
        exact ih h2
      | some c =>
        by_cases hc : c = 0
        · simp only [snapshotLoop, henv, hfc, hc, ne_eq, not_true_eq_false, if_false, hrestore]
          exact ih h2
        · simp only [snapshotLoop, henv, hfc, if_pos hc, hrestore]



/-- C3 counterexample: the module is streaming (connection socket 0 open,
interval timer 10 active); a second successful `startChatStream` installs a
new session (socket 1, timer 11) WITHOUT closing the prior connection or
cancelling the prior schedule: afterwards two interval timers are active
and both sockets are open, refuting "calling start again first closes the
prior session's connection and cancels its recurring schedule ... at most
one session (one connection and one recurring timer) is ever active". -/
theorem startChatStream_second_start_leaks :
    (startChatStream 2
      (fun p => if p = 9222
        then PortResponse.pages
          [⟨some "http://a/workbench.html", some "AG", some "page", "ws://a"⟩]
        else .closed)
      (fun _ => ⟨some ⟨1, [7], none⟩, fun _ => .value true,
                 fun _ => .ok ⟨"<p>c3</p>", "", "", ""⟩, fun _ => false⟩)
      11 ⟨some ⟨0, [], none⟩, some 1, some 10, none⟩ ⟨[0], [10]⟩).2.1.timers = [10, 11] ∧
    (startChatStream 2
      (fun p => if p = 9222
        then PortResponse.pages
          [⟨some "http://a/workbench.html", some "AG", some "page", "ws://a"⟩]
        else .closed)
      (fun _ => ⟨some ⟨1, [7], none⟩, fun _ => .value true,
                 fun _ => .ok ⟨"<p>c3</p>", "", "", ""⟩, fun _ => false⟩)
      11 ⟨some ⟨0, [], none⟩, some 1, some 10, none⟩ ⟨[0], [10]⟩).2.1.openSockets = [0, 1] ∧
    (startChatStream 2
      (fun p => if p = 9222
        then PortResponse.pages
          [⟨some "http://a/workbench.html", some "AG", some "page", "ws://a"⟩]
        else .closed)
      (fun _ => ⟨some ⟨1, [7], none⟩, fun _ => .value true,
                 fun _ => .ok ⟨"<p>c3</p>", "", "", ""⟩, fun _ => false⟩)
      11 ⟨some ⟨0, [], none⟩, some 1, some 10, none⟩ ⟨[0], [10]⟩).2.2.success = true := by
  refine ⟨rfl, rfl, rfl⟩

/-- C3 amended: a successful `startChatStream` while a prior session is
active (its timer scheduled, its socket open, and no attempted target
reusing that socket) leaves the prior timer scheduled and the prior socket
open while installing the new timer alongside: the module merely replaces
its references, so two recurring timers are active and both connections
remain open. -/
theorem startChatStream_replaces_without_cleanup (cb : Nat) (resp : Nat → PortResponse)
    (env : Target → ConnEnv) (timerId : Nat) (st : ModuleState) (w : World)
    (t0 : Nat) (c0 : CDP)
    (hpi : st.pollInterval = some t0) (hconn : st.connection = some c0)
    (ht : t0 ∈ w.timers) (hs : c0.sock ∈ w.openSockets)
    (hfresh : (findTargets resp).all (fun tg => match (env tg).connect with
      | none => true
      | some cdp => cdp.sock != c0.sock) = true)
    (hsucc : (startChatStream cb resp env timerId st w).2.2.success = true) :
    t0 ∈ (startChatStream cb resp env timerId st w).2.1.timers ∧
    timerId ∈ (startChatStream cb resp env timerId st w).2.1.timers ∧
    c0.sock ∈ (startChatStream cb resp env timerId st w).2.1.openSockets ∧
    (startChatStream cb resp env timerId st w).1.pollInterval = some timerId := by
  by_cases hemp : (findTargets resp).isEmpty
  · rw [startChatStream, if_pos hemp] at hsucc
    simp at hsucc
  · rw [startChatStream, if_neg hemp] at hsucc ⊢
    obtain ⟨r1, r2, r3⟩ := tryTargets_resources env timerId (findTargets resp)
      { st with onChatUpdate := some cb } w t0 c0.sock ht hs hfresh
    exact ⟨r1, (r3 hsucc).1, r2, (r3 hsucc).2⟩

/-- C3 witness: concrete instantiation of the amended statement (prior
session socket 0 / timer 10; new session socket 1 / timer 11). -/
theorem startChatStream_replaces_without_cleanup_witness :
    ((⟨some ⟨0, [], none⟩, some 1, some 10, none⟩ : ModuleState).pollInterval = some 10) ∧
    ((10 : Nat) ∈ (⟨[0], [10]⟩ : World).timers) ∧
    (10 ∈ (startChatStream 3
      (fun p => if p = 9000
        then PortResponse.pages
          [⟨some "http://b/workbench.html", some "AG", some "page", "ws://b"⟩]
        else .closed)
      (fun _ => ⟨some ⟨1, [8], none⟩, fun _ => .value true,
                 fun _ => .ok ⟨"<p>c3w</p>", "", "", ""⟩, fun _ => false⟩)
      11 ⟨some ⟨0, [], none⟩, some 1, some 10, none⟩ ⟨[0], [10]⟩).2.1.timers ∧
     11 ∈ (startChatStream 3
      (fun p => if p = 9000
        then PortResponse.pages
          [⟨some "http://b/workbench.html", some "AG", some "page", "ws://b"⟩]
        else .closed)
      (fun _ => ⟨some ⟨1, [8], none⟩, fun _ => .value true,
                 fun _ => .ok ⟨"<p>c3w</p>", "", "", ""⟩, fun _ => false⟩)
      11 ⟨some ⟨0, [], none⟩, some 1, some 10, none⟩ ⟨[0], [10]⟩).2.1.timers ∧
     (⟨0, [], none⟩ : CDP).sock ∈ (startChatStream 3
      (fun p => if p = 9000
        then PortResponse.pages
          [⟨some "http://b/workbench.html", some "AG", some "page", "ws://b"⟩]
        else .closed)
      (fun _ => ⟨some ⟨1, [8], none⟩, fun _ => .value true,
                 fun _ => .ok ⟨"<p>c3w</p>", "", "", ""⟩, fun _ => false⟩)
      11 ⟨some ⟨0, [], none⟩, some 1, some 10, none⟩ ⟨[0], [10]⟩).2.1.openSockets ∧
     (startChatStream 3
      (fun p => if p = 9000
        then PortResponse.pages
          [⟨some "http://b/workbench.html", some "AG", some "page", "ws://b"⟩]
        else .closed)
      (fun _ => ⟨some ⟨1, [8], none⟩, fun _ => .value true,
                 fun _ => .ok ⟨"<p>c3w</p>", "", "", ""⟩, fun _ => false⟩)
      11 ⟨some ⟨0, [], none⟩, some 1, some 10, none⟩ ⟨[0], [10]⟩).1.pollInterval = some 11) :=
  ⟨rfl, by decide,
   startChatStream_replaces_without_cleanup 3
     (fun p => if p = 9000
        then PortResponse.pages
          [⟨some "http://b/workbench.html", some "AG", some "page", "ws://b"⟩]
        else .closed)
     (fun _ => ⟨some ⟨1, [8], none⟩, fun _ => .value true,
                fun _ => .ok ⟨"<p>c3w</p>", "", "", ""⟩, fun _ => false⟩)
     11 ⟨some ⟨0, [], none⟩, some 1, some 10, none⟩ ⟨[0], [10]⟩ 10 ⟨0, [], none⟩
     rfl rfl (by decide) (by decide) (by decide) (by decide)⟩

/-- C5: from a non-streaming state, a `startChatStream` call in which
discovery finds nothing, or in which no attempted endpoint yields a located
cascade context, returns a structured `success := false` result (it is a
total function — it does not throw) and leaves `isStreaming` false. -/
theorem startChatStream_failure_not_streaming (cb : Nat) (resp : Nat → PortResponse)
    (env : Target → ConnEnv) (timerId : Nat) (st : ModuleState) (w : World)
    (hstream : isStreaming st = false)
    (hfail : (findTargets resp).all (fun tg => locateFails (env tg)) = true) :
    (startChatStream cb resp env timerId st w).2.2.success = false ∧
    isStreaming (startChatStream cb resp env timerId st w).1 = false := by
  by_cases hemp : (findTargets resp).isEmpty
  · rw [startChatStream, if_pos hemp]
    exact ⟨rfl, hstream⟩
  · rw [startChatStream, if_neg hemp]
    obtain ⟨h1, h2⟩ := tryTargets_all_fail env timerId (findTargets resp)
      { st with onChatUpdate := some cb } w hfail
    refine ⟨by rw [h2], ?_⟩
    rw [h1]
    exact hstream

/-- C5 witness: one endpoint responds but its page hosts no cascade root;
start fails and streaming stays off. -/
theorem startChatStream_failure_not_streaming_witness :
    isStreaming ⟨none, none, none, none⟩ = false ∧
    ((findTargets (fun p => if p = 9222
        then PortResponse.pages [⟨some "http://c/workbench.html", some "T", some "page", "ws://c"⟩]
        else .closed)).all
      (fun tg => locateFails ((fun _ => (⟨some ⟨4, [], none⟩, fun _ => .value false,
        fun _ => .ok ⟨"", "", "", ""⟩, fun _ => false⟩ : ConnEnv)) tg)) = true) ∧
    ((startChatStream 9
      (fun p => if p = 9222
        then PortResponse.pages [⟨some "http://c/workbench.html", some "T", some "page", "ws://c"⟩]
        else .closed)
      (fun _ => ⟨some ⟨4, [], none⟩, fun _ => .value false,
        fun _ => .ok ⟨"", "", "", ""⟩, fun _ => false⟩)
      12 ⟨none, none, none, none⟩ ⟨[], []⟩).2.2.success = false ∧
     isStreaming (startChatStream 9
      (fun p => if p = 9222
        then PortResponse.pages [⟨some "http://c/workbench.html", some "T", some "page", "ws://c"⟩]
        else .closed)
      (fun _ => ⟨some ⟨4, [], none⟩, fun _ => .value false,
        fun _ => .ok ⟨"", "", "", ""⟩, fun _ => false⟩)
      12 ⟨none, none, none, none⟩ ⟨[], []⟩).1 = false) :=
  ⟨rfl, by decide,
   startChatStream_failure_not_streaming 9
     (fun p => if p = 9222
        then PortResponse.pages [⟨some "http://c/workbench.html", some "T", some "page", "ws://c"⟩]
        else .closed)
     (fun _ => ⟨some ⟨4, [], none⟩, fun _ => .value false,
        fun _ => .ok ⟨"", "", "", ""⟩, fun _ => false⟩)
     12 ⟨none, none, none, none⟩ ⟨[], []⟩ rfl (by decide)⟩

/-- C10: `startChatStream` stores the supplied consumer callback before
discovery; when every attempted endpoint fails to yield a located cascade
context (in particular when discovery finds nothing), the call returns a
failure result with the callback nevertheless replaced, while the
connection, the recurring schedule and the last-emitted fingerprint are
untouched — a failed start is not atomic with respect to module state. -/
theorem startChatStream_failure_replaces_callback (cb : Nat) (resp : Nat → PortResponse)
    (env : Target → ConnEnv) (timerId : Nat) (st : ModuleState) (w : World)
    (hfail : (findTargets resp).all (fun tg => locateFails (env tg)) = true) :
    (startChatStream cb resp env timerId st w).2.2.success = false ∧
    (startChatStream cb resp env timerId st w).1.onChatUpdate = some cb ∧
    (startChatStream cb resp env timerId st w).1.connection = st.connection ∧
    (startChatStream cb resp env timerId st w).1.pollInterval = st.pollInterval ∧
    (startChatStream cb resp env timerId st w).1.lastHash = st.lastHash := by
  by_cases hemp : (findTargets resp).isEmpty
  · rw [startChatStream, if_pos hemp]
    exact ⟨rfl, rfl, rfl, rfl, rfl⟩
  · rw [startChatStream, if_neg hemp]
    obtain ⟨h1, h2⟩ := tryTargets_all_fail env timerId (findTargets resp)
      { st with onChatUpdate := some cb } w hfail
    rw [h1, h2]
    exact ⟨rfl, rfl, rfl, rfl, rfl⟩

/-- C10 witness: a previously registered callback 1 is replaced by 4 even
though the start fails; connection, schedule and fingerprint unchanged. -/
theorem startChatStream_failure_replaces_callback_witness :
    ((findTargets (fun p => if p = 9001
        then PortResponse.pages [⟨some "http://d/workbench.html", some "U", some "page", "ws://d"⟩]
        else .closed)).all
      (fun tg => locateFails ((fun _ => (⟨none, fun _ => .value false,
        fun _ => .ok ⟨"", "", "", ""⟩, fun _ => false⟩ : ConnEnv)) tg)) = true) ∧
    ((startChatStream 4
      (fun p => if p = 9001
        then PortResponse.pages [⟨some "http://d/workbench.html", some "U", some "page", "ws://d"⟩]
        else .closed)
      (fun _ => ⟨none, fun _ => .value false, fun _ => .ok ⟨"", "", "", ""⟩, fun _ => false⟩)
      13 ⟨none, some 1, none, some "h0"⟩ ⟨[], []⟩).2.2.success = false ∧
     (startChatStream 4
      (fun p => if p = 9001
        then PortResponse.pages [⟨some "http://d/workbench.html", some "U", some "page", "ws://d"⟩]
        else .closed)
      (fun _ => ⟨none, fun _ => .value false, fun _ => .ok ⟨"", "", "", ""⟩, fun _ => false⟩)
      13 ⟨none, some 1, none, some "h0"⟩ ⟨[], []⟩).1.onChatUpdate = some 4 ∧
     (startChatStream 4
      (fun p => if p = 9001
        then PortResponse.pages [⟨some "http://d/workbench.html", some "U", some "page", "ws://d"⟩]
        else .closed)
      (fun _ => ⟨none, fun _ => .value false, fun _ => .ok ⟨"", "", "", ""⟩, fun _ => false⟩)
      13 ⟨none, some 1, none, some "h0"⟩ ⟨[], []⟩).1.connection
       = (⟨none, some 1, none, some "h0"⟩ : ModuleState).connection ∧
     (startChatStream 4
      (fun p => if p = 9001
        then PortResponse.pages [⟨some "http://d/workbench.html", some "U", some "page", "ws://d"⟩]
        else .closed)
      (fun _ => ⟨none, fun _ => .value false, fun _ => .ok ⟨"", "", "", ""⟩, fun _ => false⟩)
      13 ⟨none, some 1, none, some "h0"⟩ ⟨[], []⟩).1.pollInterval
       = (⟨none, some 1, none, some "h0"⟩ : ModuleState).pollInterval ∧
     (startChatStream 4
      (fun p => if p = 9001
        then PortResponse.pages [⟨some "http://d/workbench.html", some "U", some "page", "ws://d"⟩]
        else .closed)
      (fun _ => ⟨none, fun _ => .value false, fun _ => .ok ⟨"", "", "", ""⟩, fun _ => false⟩)
      13 ⟨none, some 1, none, some "h0"⟩ ⟨[], []⟩).1.lastHash
       = (⟨none, some 1, none, some "h0"⟩ : ModuleState).lastHash) :=
  ⟨by decide,
   startChatStream_failure_replaces_callback 4
     (fun p => if p = 9001
        then PortResponse.pages [⟨some "http://d/workbench.html", some "U", some "page", "ws://d"⟩]
        else .closed)
     (fun _ => ⟨none, fun _ => .value false, fun _ => .ok ⟨"", "", "", ""⟩, fun _ => false⟩)
     13 ⟨none, some 1, none, some "h0"⟩ ⟨[], []⟩ (by decide)⟩

/-- C9: a one-shot `getChatSnapshot` call has no side effect on the
recurring streaming state: the timer handle, the recorded fingerprint, the
registered consumer callback and the active connection (its presence and
socket) are unchanged for every prior state; and the world is unchanged —
in the ephemeral non-streaming path every transient connection it opens is
closed before it returns (and no timer is ever installed). -/
theorem getChatSnapshot_frame (resp : Nat → PortResponse) (env : Target → ConnEnv)
    (probe : Nat → EvalResult) (capture : Nat → CaptureOutcome)
    (st : ModuleState) (w : World)
    (hfresh : (findTargets resp).all (fun tg => match (env tg).connect with
      | none => true
      | some cdp => !(w.openSockets.contains cdp.sock)) = true) :
    (getChatSnapshot resp env probe capture st w).1.pollInterval = st.pollInterval ∧
    (getChatSnapshot resp env probe capture st w).1.lastHash = st.lastHash ∧
    (getChatSnapshot resp env probe capture st w).1.onChatUpdate = st.onChatUpdate ∧
    (getChatSnapshot resp env probe capture st w).1.connection.map CDP.sock
      = st.connection.map CDP.sock ∧
    (getChatSnapshot resp env probe capture st w).2.1 = w := by
  cases hconn : st.connection with
  | none =>
    have hw := snapshotLoop_world env (findTargets resp) w hfresh
    rcases hsl : snapshotLoop env (findTargets resp) w with ⟨w2, chat⟩
    rw [hsl] at hw
    simp only [getChatSnapshot, hconn, hsl]
    refine ⟨?_, ?_, ?_, ?_, ?_⟩ <;> first | rfl | trivial | exact hw
  | some conn =>
    have hsock := findCascadeContext_sock probe conn
    rcases hfc : findCascadeContext probe conn with ⟨conn2, octx⟩
    rw [hfc] at hsock
    dsimp only at hsock
    cases octx with
    | none =>
      simp only [getChatSnapshot, hconn, hfc]
      refine ⟨?_, ?_, ?_, ?_, ?_⟩ <;> first | rfl | trivial | exact hsock | simp [hsock]
    | some c =>
      by_cases hc : c = 0
      · simp only [getChatSnapshot, hconn, hfc, hc, ne_eq, not_true_eq_false, if_false]
        refine ⟨?_, ?_, ?_, ?_, ?_⟩ <;> first | rfl | trivial | exact hsock | simp [hsock]
      · simp only [getChatSnapshot, hconn, hfc, if_pos hc]
        refine ⟨?_, ?_, ?_, ?_, ?_⟩ <;> first | rfl | trivial | exact hsock | simp [hsock]

/-- C9 witness: an ephemeral one-shot snapshot (no streaming session): the
transient socket 9 is opened and closed again, and the module state is
untouched. -/
theorem getChatSnapshot_frame_witness :
    ((findTargets (fun p => if p = 9002
        then PortResponse.pages [⟨some "http://e/workbench.html", some "V", some "page", "ws://e"⟩]
        else .closed)).all
      (fun tg => match ((fun _ => (⟨some ⟨9, [6], none⟩, fun _ => .value true,
          fun _ => .ok ⟨"<p>s</p>", "", "", ""⟩, fun _ => false⟩ : ConnEnv)) tg).connect with
        | none => true
        | some cdp => !((⟨[5], [77]⟩ : World).openSockets.contains cdp.sock)) = true) ∧
    ((getChatSnapshot (fun p => if p = 9002
        then PortResponse.pages [⟨some "http://e/workbench.html", some "V", some "page", "ws://e"⟩]
        else .closed)
      (fun _ => ⟨some ⟨9, [6], none⟩, fun _ => .value true,
          fun _ => .ok ⟨"<p>s</p>", "", "", ""⟩, fun _ => false⟩)
      (fun _ => .value true) (fun _ => .ok ⟨"<p>s</p>", "", "", ""⟩)
      ⟨none, some 2, none, some "hh"⟩ ⟨[5], [77]⟩).1.pollInterval
        = (⟨none, some 2, none, some "hh"⟩ : ModuleState).pollInterval ∧
     (getChatSnapshot (fun p => if p = 9002
        then PortResponse.pages [⟨some "http://e/workbench.html", some "V", some "page", "ws://e"⟩]
        else .closed)
      (fun _ => ⟨some ⟨9, [6], none⟩, fun _ => .value true,
          fun _ => .ok ⟨"<p>s</p>", "", "", ""⟩, fun _ => false⟩)
      (fun _ => .value true) (fun _ => .ok ⟨"<p>s</p>", "", "", ""⟩)
      ⟨none, some 2, none, some "hh"⟩ ⟨[5], [77]⟩).1.lastHash
        = (⟨none, some 2, none, some "hh"⟩ : ModuleState).lastHash ∧
     (getChatSnapshot (fun p => if p = 9002
        then PortResponse.pages [⟨some "http://e/workbench.html", some "V", some "page", "ws://e"⟩]
        else .closed)
      (fun _ => ⟨some ⟨9, [6], none⟩, fun _ => .value true,
          fun _ => .ok ⟨"<p>s</p>", "", "", ""⟩, fun _ => false⟩)
      (fun _ => .value true) (fun _ => .ok ⟨"<p>s</p>", "", "", ""⟩)
      ⟨none, some 2, none, some "hh"⟩ ⟨[5], [77]⟩).1.onChatUpdate
        = (⟨none, some 2, none, some "hh"⟩ : ModuleState).onChatUpdate ∧
     (getChatSnapshot (fun p => if p = 9002
        then PortResponse.pages [⟨some "http://e/workbench.html", some "V", some "page", "ws://e"⟩]
        else .closed)
      (fun _ => ⟨some ⟨9, [6], none⟩, fun _ => .value true,
          fun _ => .ok ⟨"<p>s</p>", "", "", ""⟩, fun _ => false⟩)
      (fun _ => .value true) (fun _ => .ok ⟨"<p>s</p>", "", "", ""⟩)
      ⟨none, some 2, none, some "hh"⟩ ⟨[5], [77]⟩).1.connection.map CDP.sock
        = (⟨none, some 2, none, some "hh"⟩ : ModuleState).connection.map CDP.sock ∧
     (getChatSnapshot (fun p => if p = 9002
        then PortResponse.pages [⟨some "http://e/workbench.html", some "V", some "page", "ws://e"⟩]
        else .closed)
      (fun _ => ⟨some ⟨9, [6], none⟩, fun _ => .value true,
          fun _ => .ok ⟨"<p>s</p>", "", "", ""⟩, fun _ => false⟩)
      (fun _ => .value true) (fun _ => .ok ⟨"<p>s</p>", "", "", ""⟩)
      ⟨none, some 2, none, some "hh"⟩ ⟨[5], [77]⟩).2.1 = ⟨[5], [77]⟩) :=
  ⟨by decide,
   getChatSnapshot_frame (fun p => if p = 9002
        then PortResponse.pages [⟨some "http://e/workbench.html", some "V", some "page", "ws://e"⟩]
        else .closed)
     (fun _ => ⟨some ⟨9, [6], none⟩, fun _ => .value true,
          fun _ => .ok ⟨"<p>s</p>", "", "", ""⟩, fun _ => false⟩)
     (fun _ => .value true) (fun _ => .ok ⟨"<p>s</p>", "", "", ""⟩)
     ⟨none, some 2, none, some "hh"⟩ ⟨[5], [77]⟩ (by decide)⟩

/-! ## Claim C8 -/

set_option maxRecDepth 100000 in
/-- C8: per terminal-like container, the first of the three text-recovery
strategies yielding non-empty trimmed text wins; and for the synthetic
document whose chat root holds one terminal-like container with a
populated accessibility text layer (rows `ls -la` and `total 0`) over a
canvas surface, the extracted snapshot's tree contains a preformatted
block whose text is exactly "ls -la\ntotal 0" and no canvas element, and
the serialised markup contains the preformatted block and the recovered
text and no canvas tag. -/
theorem captureScript_terminal_extraction :
    (∀ container : DomNode,
      (strTrim (terminalStrat1 container) ≠ "" →
        extractTerminalText container = terminalStrat1 container) ∧
      (strTrim (terminalStrat1 container) = "" → strTrim (terminalStrat2 container) ≠ "" →
        extractTerminalText container = terminalStrat2 container) ∧
      (strTrim (terminalStrat1 container) = "" → strTrim (terminalStrat2 container) = "" →
        extractTerminalText container = terminalStrat3 container)) ∧
    hasDesc (fun n => tagOf n == "pre" && textContent n == "ls -la\ntotal 0")
      (transformCascade synthEnv.raster synthCascade) = true ∧
    hasDesc (fun n => tagOf n == "canvas")
      (transformCascade synthEnv.raster synthCascade) = false ∧
    (match captureScript synthEnv synthDoc with
     | .ok chat => strHas chat.html "<pre" && strHas chat.html "ls -la\ntotal 0"
         && !strHas chat.html "<canvas"
     | .error _ => false) = true := by
  refine ⟨?_, by decide, by decide, by decide⟩
  intro container
  refine ⟨?_, ?_, ?_⟩
  · intro h1
    simp [extractTerminalText, h1]
  · intro h1 h2
    simp [extractTerminalText, h1, h2]
  · intro h1 h2
    simp [extractTerminalText, h1, h2]

/-- C8 witness: on the synthetic terminal container the accessibility-layer
strategy yields non-empty trimmed text and wins. -/
theorem captureScript_terminal_extraction_witness :
    strTrim (terminalStrat1 termContainer) ≠ "" ∧
    extractTerminalText termContainer = terminalStrat1 termContainer :=
  ⟨by decide, (captureScript_terminal_extraction.1 termContainer).1 (by decide)⟩

end ChatStream
